import Mathlib

/-!
# Smart home automation system: device model and command dispatch

A shallow embedding of `src/oel.cpp`.

* `std::string` is a list of characters (`Str`).  A character stands for one
  element of the string; `isdigit` and `isspace` are those of the C locale and
  are false on every character outside ASCII.
* `int` is `Int`; `std::stoi` is the only place where the width of `int`
  matters, and it is modelled with the explicit bounds `INT_MIN`, `INT_MAX`
  of a 32-bit `int`.
* A C++ member function that mutates `*this` and may throw is a function from
  the object to an `Effect`: the object as the call leaves it, the lines it
  wrote to the console, and the exception it threw, if any.
* The wall clock read by the logger is an explicit argument.
* `e.what()` is a `const char*`: where the handler prints it or passes it to
  the logger, the text stops at the first NUL character (`c_str`).
* `executeCommand` returns the state it leaves, the console lines it wrote and
  an `Outcome`; an exception that leaves the function is the outcome
  `uncaught`, with the state as it was when the exception was thrown.
-/

namespace SmartHomeSystem

/-- A `std::string`: a finite sequence of characters. -/
abbrev Str := List Char

/-- The ANSI colour code `RED`. -/
def RED : Str := "\x1b[31m".toList

/-- The ANSI colour code `RESET`. -/
def RESET : Str := "\x1b[0m".toList

/-- The exceptions of `<stdexcept>` that the program can raise, each with the
message string it was constructed from.  All of them derive from
`std::exception`. -/
inductive Exn where
  | out_of_range (message : Str)
  | runtime_error (message : Str)
  | invalid_argument (message : Str)
  deriving DecidableEq, Repr

/-- The message string an exception was constructed from. -/
def Exn.message : Exn → Str
  | .out_of_range w => w
  | .runtime_error w => w
  | .invalid_argument w => w

/-- A `const char*` read as a C string: the characters before the first NUL. -/
def c_str (s : Str) : Str :=
  s.takeWhile (fun c => c != '\x00')

/-- The method `what()` as its callers read it (lines 292-293): a `const char*` into the
message, so the text ends at the first NUL character of the message. -/
def Exn.what (e : Exn) : Str :=
  c_str e.message

/-- The result of calling a mutating member function: the object after the
call, the lines written to the console, and the exception thrown (if any). -/
structure Effect (σ : Type) where
  self : σ
  cout : List Str
  thrown : Option Exn
  deriving DecidableEq, Repr

/-! ## Library functions used by the program -/

/-- The function `std::remove` followed by `erase`: drop every occurrence of `c`. -/
def eraseRemove (s : Str) (c : Char) : Str :=
  s.filter (fun x => x != c)

/-- The function `sanitizeDeviceName` (lines 21-26). -/
def sanitizeDeviceName (name : Str) : Str :=
  let sanitized := name
  let sanitized := eraseRemove sanitized '<'
  let sanitized := eraseRemove sanitized '>'
  sanitized

/-- The function `isdigit` in the C locale. -/
def isdigit (c : Char) : Bool :=
  decide ('0'.toNat ≤ c.toNat) && decide (c.toNat ≤ '9'.toNat)

/-- The function `isspace` in the C locale: space, `\t`, `\n`, `\v`, `\f`, `\r`. -/
def isspace (c : Char) : Bool :=
  c.toNat == 32 || (decide (9 ≤ c.toNat) && decide (c.toNat ≤ 13))

/-- The function `isNumeric` (lines 208-210). -/
def isNumeric (str : Str) : Bool :=
  !str.isEmpty && str.all isdigit

/-- The value of a decimal digit character. -/
def digitValue (c : Char) : Nat :=
  c.toNat - '0'.toNat

/-- The value of a run of decimal digits, most significant first. -/
def decimalValue (s : Str) : Nat :=
  s.foldl (fun acc c => acc * 10 + digitValue c) 0

/-- The largest value of a 32-bit `int`. -/
def INT_MAX : Int := 2147483647

/-- The smallest value of a 32-bit `int`. -/
def INT_MIN : Int := -2147483648

/-- The function `std::stoi` in base 10: skip leading white space, read an optional
sign and the longest run of digits; `invalid_argument` when there is no
digit, `out_of_range` when the value does not fit in `int`. -/
def stoi (s : Str) : Except Exn Int :=
  let s := s.dropWhile isspace
  let (neg, s) :=
    match s with
    | '-' :: r => (true, r)
    | '+' :: r => (false, r)
    | r => (false, r)
  let digits := s.takeWhile isdigit
  if digits.isEmpty then
    .error (.invalid_argument "stoi".toList)
  else
    let v : Int := if neg then -(decimalValue digits : Int) else (decimalValue digits : Int)
    if v < INT_MIN ∨ INT_MAX < v then
      .error (.out_of_range "stoi".toList)
    else
      .ok v

/-- The function `std::to_string(int)`. -/
def to_string (v : Int) : Str :=
  if v < 0 then '-' :: Nat.toDigits 10 v.natAbs else Nat.toDigits 10 v.toNat

/-- The method `std::string::find_last_of(c)`: the index of the last occurrence of `c`,
`none` for `npos`. -/
def find_last_of : Str → Char → Option Nat
  | [], _ => none
  | x :: xs, c =>
    match find_last_of xs c with
    | some i => some (i + 1)
    | none => if x = c then some 0 else none

/-- The method `std::string::substr(pos, n)` for `pos ≤ size()`. -/
def substr (s : Str) (pos n : Nat) : Str :=
  (s.drop pos).take n

/-- The method `std::string::substr(pos)` for `pos ≤ size()`. -/
def substrFrom (s : Str) (pos : Nat) : Str :=
  s.drop pos

/-! ## Devices (lines 113-206) -/

/-- The base class `Device`: its data members. -/
structure Device where
  name : Str
  isOn : Bool
  deriving DecidableEq, Repr

/-- The constructor `Device(deviceName)`. -/
def Device.new (deviceName : Str) : Device :=
  { name := deviceName, isOn := false }

/-- The method `Device::turnOn`. -/
def Device.turnOn (d : Device) : Device :=
  { d with isOn := true }

/-- The method `Device::turnOff`. -/
def Device.turnOff (d : Device) : Device :=
  { d with isOn := false }

/-- The method `Device::getStatus`. -/
def Device.getStatus (d : Device) : Str :=
  d.name ++ " is ".toList ++ (if d.isOn then "on".toList else "off".toList)

/-- The method `Device::adjustSetting`: the empty body of line 129. -/
def Device.adjustSetting (d : Device) (_value : Int) : Effect Device :=
  { self := d, cout := [], thrown := none }

/-- The class `Light`. -/
structure Light extends Device where
  brightness : Int
  deriving DecidableEq, Repr

/-- The constructor `Light(name)`. -/
def Light.new (name : Str) : Light :=
  { toDevice := Device.new name, brightness := 0 }

/-- The method `Light::turnOn`. -/
def Light.turnOn (l : Light) : Light :=
  { l with isOn := true, brightness := 100 }

/-- The method `Light::turnOff`. -/
def Light.turnOff (l : Light) : Light :=
  { l with isOn := false, brightness := 0 }

/-- The method `Light::adjustSetting` (lines 154-166). -/
def Light.adjustSetting (l : Light) (value : Int) : Effect Light :=
  if !l.isOn then
    { self := l
      cout := [RED ++ "Cannot adjust brightness while the light is off.".toList ++ RESET]
      thrown := none }
  else if value < 0 ∨ value > 100 then
    { self := l, cout := []
      thrown := some (.out_of_range "Brightness must be between 0 and 100".toList) }
  else
    { self := { l with brightness := value }, cout := [], thrown := none }

/-- The method `Light::getStatus`. -/
def Light.getStatus (l : Light) : Str :=
  l.toDevice.getStatus ++ " (Brightness: ".toList ++ to_string l.brightness ++ "%)".toList

/-- The class `Thermostat`. -/
structure Thermostat extends Device where
  temperature : Int
  deriving DecidableEq, Repr

/-- The constructor `Thermostat(name)`. -/
def Thermostat.new (name : Str) : Thermostat :=
  { toDevice := Device.new name, temperature := 20 }

/-- The method `Thermostat::adjustSetting` (lines 182-189). -/
def Thermostat.adjustSetting (t : Thermostat) (value : Int) : Effect Thermostat :=
  if value < 0 ∨ value > 40 then
    { self := t, cout := []
      thrown := some (.out_of_range
        "Temperature must be between 0 and 40 degrees Celsius".toList) }
  else
    { self := { t with temperature := value }, cout := [], thrown := none }

/-- The method `Thermostat::getStatus`. -/
def Thermostat.getStatus (t : Thermostat) : Str :=
  t.toDevice.getStatus ++ " (Temperature: ".toList ++ to_string t.temperature ++ "°C)".toList

/-- The class `SecurityCamera`: no data member and no override of `turnOn`,
`turnOff` or `adjustSetting`. -/
structure SecurityCamera extends Device where
  deriving DecidableEq, Repr

/-- The constructor `SecurityCamera(name)`. -/
def SecurityCamera.new (name : Str) : SecurityCamera :=
  { toDevice := Device.new name }

/-- The method `SecurityCamera::getStatus`. -/
def SecurityCamera.getStatus (c : SecurityCamera) : Str :=
  c.toDevice.getStatus ++ (if c.isOn then " (Recording)".toList else " (Not Recording)".toList)

/-- The method `adjustSetting` of a `SecurityCamera`: inherited from `Device`. -/
def SecurityCamera.adjustSetting (c : SecurityCamera) (value : Int) : Effect SecurityCamera :=
  let r := c.toDevice.adjustSetting value
  { self := { toDevice := r.self }, cout := r.cout, thrown := r.thrown }

/-- The method `turnOn` of a `SecurityCamera`: inherited from `Device`. -/
def SecurityCamera.turnOn (c : SecurityCamera) : SecurityCamera :=
  { toDevice := c.toDevice.turnOn }

/-- The method `turnOff` of a `SecurityCamera`: inherited from `Device`. -/
def SecurityCamera.turnOff (c : SecurityCamera) : SecurityCamera :=
  { toDevice := c.toDevice.turnOff }

/-- The method `turnOn` of a `Thermostat`: inherited from `Device`. -/
def Thermostat.turnOn (t : Thermostat) : Thermostat :=
  { t with toDevice := t.toDevice.turnOn }

/-- The method `turnOff` of a `Thermostat`: inherited from `Device`. -/
def Thermostat.turnOff (t : Thermostat) : Thermostat :=
  { t with toDevice := t.toDevice.turnOff }

/-- A `std::unique_ptr<Device>`: an object of one of the three concrete
classes, on which calls are dispatched virtually. -/
inductive DevicePtr where
  | light (l : Light)
  | thermostat (t : Thermostat)
  | camera (c : SecurityCamera)
  deriving DecidableEq, Repr

namespace DevicePtr

/-- The method `Device::getName`. -/
def getName : DevicePtr → Str
  | light l => l.name
  | thermostat t => t.name
  | camera c => c.name

/-- The on-state of the pointed-to device. -/
def isOn : DevicePtr → Bool
  | light l => l.isOn
  | thermostat t => t.isOn
  | camera c => c.isOn

/-- Virtual call of `turnOn`. -/
def turnOn : DevicePtr → DevicePtr
  | light l => light l.turnOn
  | thermostat t => thermostat t.turnOn
  | camera c => camera c.turnOn

/-- Virtual call of `turnOff`. -/
def turnOff : DevicePtr → DevicePtr
  | light l => light l.turnOff
  | thermostat t => thermostat t.turnOff
  | camera c => camera c.turnOff

/-- Virtual call of `getStatus`. -/
def getStatus : DevicePtr → Str
  | light l => l.getStatus
  | thermostat t => t.getStatus
  | camera c => c.getStatus

/-- Virtual call of `adjustSetting`. -/
def adjustSetting : DevicePtr → Int → Effect DevicePtr
  | light l, v =>
    let r := l.adjustSetting v
    { self := light r.self, cout := r.cout, thrown := r.thrown }
  | thermostat t, v =>
    let r := t.adjustSetting v
    { self := thermostat r.self, cout := r.cout, thrown := r.thrown }
  | camera c, v =>
    let r := c.adjustSetting v
    { self := camera r.self, cout := r.cout, thrown := r.thrown }

end DevicePtr

/-! ## Logger (lines 32-111) -/

/-- The class `Logger`: the lines written to the log file by this process, and
the in-memory command history, oldest entry first. -/
structure Logger where
  logFile : List Str
  commandHistory : List Str
  deriving DecidableEq, Repr

/-- The constant `MAX_HISTORY_SIZE`. -/
def MAX_HISTORY_SIZE : Nat := 1000

/-- The constructor `Logger()` when the log file opens. -/
def Logger.new : Logger :=
  { logFile := [[], "=== New Session Started ===".toList], commandHistory := [] }

/-- The method `Logger::logCommand` (lines 58-70); `timestamp` is what
`getCurrentTimestamp` returns at the call. -/
def Logger.logCommand (lg : Logger) (timestamp command : Str) : Logger :=
  let logFile := lg.logFile ++ [timestamp ++ " - Command: ".toList ++ command]
  let commandHistory := lg.commandHistory ++ [timestamp ++ " - ".toList ++ command]
  let commandHistory :=
    if commandHistory.length > MAX_HISTORY_SIZE then commandHistory.tail else commandHistory
  { logFile := logFile, commandHistory := commandHistory }

/-- The method `Logger::logStateChange` (lines 72-79); `timestamp` is the formatted
clock reading at the call. -/
def Logger.logStateChange (lg : Logger) (timestamp deviceName state : Str) : Logger :=
  { lg with
    logFile := lg.logFile ++
      [timestamp ++ " - State Change: ".toList ++ deviceName ++ " - ".toList ++ state] }

/-! ## Stream operations used by the parser -/

/-- The extraction `iss >> action`: skip leading white space, then read up to the next
white-space character.  Returns the token and what is left in the stream. -/
def extractToken (s : Str) : Str × Str :=
  let s := s.dropWhile isspace
  (s.takeWhile (fun c => !isspace c), s.dropWhile (fun c => !isspace c))

/-- The call `std::getline(iss, line)`: the characters up to the first line feed (or
the end of the stream). -/
def getline (s : Str) : Str :=
  s.takeWhile (fun c => c != '\n')

/-- The method `std::string::find_first_not_of(c)`: the index of the first character
other than `c`, `none` for `npos`. -/
def find_first_not_of : Str → Char → Option Nat
  | [], _ => none
  | x :: xs, c =>
    if x ≠ c then some 0
    else
      match find_first_not_of xs c with
      | some i => some (i + 1)
      | none => none

/-- The method `std::string::erase(0, n)`, where `none` stands for `npos`. -/
def erasePrefix (s : Str) (n : Option Nat) : Str :=
  match n with
  | some k => s.drop k
  | none => []

/-! ## SmartHome (lines 211-316) -/

/-- The class `SmartHome`. -/
structure SmartHome where
  devices : List DevicePtr
  logger : Logger
  deriving DecidableEq, Repr

/-- The method `SmartHome::addDevice` (lines 220-224). -/
def SmartHome.addDevice (h : SmartHome) (now : Str) (device : DevicePtr) : SmartHome :=
  { devices := h.devices ++ [device]
    logger := h.logger.logStateChange now device.getName "Device added".toList }

/-- The call `std::find_if` of lines 269-270: the position of the first device whose
name is `deviceName`, with that device; `none` for `devices.end()`. -/
def find_if : List DevicePtr → Str → Option (Nat × DevicePtr)
  | [], _ => none
  | d :: ds, deviceName =>
    if d.getName = deviceName then some (0, d)
    else
      match find_if ds deviceName with
      | some (i, e) => some (i + 1, e)
      | none => none

/-- The action token of a command line (lines 237-239). -/
def commandAction (command : Str) : Str :=
  (extractToken command).1

/-- The variable `remainingCommand` after line 243: the rest of the first line, without its
leading spaces. -/
def commandRemainder (command : Str) : Str :=
  let remainingCommand := getline (extractToken command).2
  erasePrefix remainingCommand (find_first_not_of remainingCommand ' ')

/-- The local variables of `executeCommand` when the `try` block is entered. -/
structure Parsed where
  action : Str
  deviceName : Str
  settingStr : Str
  settingValue : Int
  hasSetting : Bool
  deriving DecidableEq, Repr

/-- How the parse section of `executeCommand` (lines 237-266) ends. -/
inductive ParseExit where
  /-- The `return` of line 259, after the message on `std::cerr`. -/
  | returned
  /-- The call `std::stoi` of line 261 threw. -/
  | threw (e : Exn)
  /-- Control reaches the `try` block. -/
  | parsed (p : Parsed)
  deriving DecidableEq, Repr

/-- The parse section of `executeCommand` (lines 237-266). -/
def parseCommand (command : Str) : ParseExit :=
  let action := commandAction command
  let remainingCommand := commandRemainder command
  if action = "set".toList then
    match find_last_of remainingCommand ' ' with
    | some pos =>
      let deviceName := sanitizeDeviceName (substr remainingCommand 0 pos)
      let settingStr := substrFrom remainingCommand (pos + 1)
      if !isNumeric settingStr then
        .returned
      else
        match stoi settingStr with
        | .error e => .threw e
        | .ok v =>
          .parsed { action := action, deviceName := deviceName, settingStr := settingStr,
                    settingValue := v, hasSetting := true }
    | none =>
      .parsed { action := action, deviceName := [], settingStr := [],
                settingValue := 0, hasSetting := false }
  else
    .parsed { action := action, deviceName := sanitizeDeviceName remainingCommand,
              settingStr := [], settingValue := 0, hasSetting := false }

/-- The `try` block of `executeCommand` (lines 269-290), up to the point where it
ends or throws; `now` is the clock reading of its `logStateChange` call. -/
def tryBlock (now : Str) (h : SmartHome) (p : Parsed) : Effect SmartHome :=
  match find_if h.devices p.deviceName with
  | none =>
    { self := h, cout := []
      thrown := some (.runtime_error ("Device not found: ".toList ++ p.deviceName)) }
  | some (i, d) =>
    if p.action = "on".toList then
      { self := { devices := h.devices.set i d.turnOn
                  logger := h.logger.logStateChange now p.deviceName "Turned ON".toList }
        cout := [], thrown := none }
    else if p.action = "off".toList then
      { self := { devices := h.devices.set i d.turnOff
                  logger := h.logger.logStateChange now p.deviceName "Turned OFF".toList }
        cout := [], thrown := none }
    else if p.action = "status".toList then
      { self := { devices := h.devices
                  logger := h.logger.logStateChange now p.deviceName
                    ("Status checked: ".toList ++ d.getStatus) }
        cout := [d.getStatus], thrown := none }
    else if p.action = "set".toList ∧ p.hasSetting = true then
      let r := d.adjustSetting p.settingValue
      match r.thrown with
      | some e =>
        { self := { devices := h.devices.set i r.self, logger := h.logger }
          cout := r.cout, thrown := some e }
      | none =>
        { self := { devices := h.devices.set i r.self
                    logger := h.logger.logStateChange now p.deviceName
                      ("Setting adjusted to ".toList ++ to_string p.settingValue) }
          cout := r.cout, thrown := none }
    else
      { self := h, cout := []
        thrown := some (.runtime_error
          ("Invalid action or missing setting for: ".toList ++ p.action)) }

/-- How a call of `executeCommand` ends. -/
inductive Outcome where
  /-- The `try` block ran to its end. -/
  | success
  /-- The early `return` of line 259: invalid setting value. -/
  | invalidSetting
  /-- The handler of lines 291-294 ran for `e`. -/
  | caught (e : Exn)
  /-- The exception `e` left `executeCommand`. -/
  | uncaught (e : Exn)
  deriving DecidableEq, Repr

/-- The state after a call of `executeCommand`, the lines it wrote to the console
(`std::cout` and `std::cerr` together), and how it ended. -/
structure Exec where
  home : SmartHome
  console : List Str
  outcome : Outcome
  deriving DecidableEq, Repr

/-- The method `SmartHome::executeCommand` (lines 235-295).  The clock reads `t0` in
`logCommand` and `t1` in the one `logStateChange` call that follows. -/
def SmartHome.executeCommand (h : SmartHome) (t0 t1 : Str) (command : Str) : Exec :=
  let h : SmartHome := { h with logger := h.logger.logCommand t0 command }
  match parseCommand command with
  | .returned =>
    { home := h
      console := [RED ++
        "Error: Invalid setting value. Please provide a numeric value.".toList ++ RESET]
      outcome := .invalidSetting }
  | .threw e =>
    { home := h, console := [], outcome := .uncaught e }
  | .parsed p =>
    let r := tryBlock t1 h p
    match r.thrown with
    | none =>
      { home := r.self, console := r.cout, outcome := .success }
    | some e =>
      { home := { r.self with
                  logger := r.self.logger.logStateChange t1 "ERROR".toList e.what }
        console := r.cout ++ [RED ++ "Error: ".toList ++ e.what ++ RESET]
        outcome := .caught e }

/-- The registry built by `main` (lines 343-347), with `now` the clock reading at each
`addDevice`. -/
def mainHome (now : Str) : SmartHome :=
  let smartHome : SmartHome := { devices := [], logger := Logger.new }
  let smartHome := smartHome.addDevice now (.light (Light.new "Living Room Light".toList))
  let smartHome := smartHome.addDevice now (.thermostat (Thermostat.new "Main Thermostat".toList))
  let smartHome := smartHome.addDevice now (.camera (SecurityCamera.new "Front Door Camera".toList))
  smartHome

/-! ## Predicates and runs used to state the properties -/

/-- The value range declared for each variant. -/
def DevicePtr.inRange : DevicePtr → Prop
  | .light l => 0 ≤ l.brightness ∧ l.brightness ≤ 100
  | .thermostat t => 0 ≤ t.temperature ∧ t.temperature ≤ 40
  | .camera _ => True

instance (d : DevicePtr) : Decidable d.inRange := by
  cases d <;> unfold DevicePtr.inRange <;> infer_instance

/-- A device as its constructor leaves it. -/
def DevicePtr.isFresh : DevicePtr → Prop
  | .light l => l = Light.new l.name
  | .thermostat t => t = Thermostat.new t.name
  | .camera c => c = SecurityCamera.new c.name

instance (d : DevicePtr) : Decidable d.isFresh := by
  cases d <;> unfold DevicePtr.isFresh <;> infer_instance

/-- One call of `executeCommand`: the two clock readings and the input line. -/
structure Call where
  t0 : Str
  t1 : Str
  command : Str
  deriving DecidableEq, Repr

/-- The state after a finite sequence of `executeCommand` calls.  A call that ends
with an uncaught exception ends the process in `main`; here the run goes on
from the state that call left, so the states of the program are among those
this function reaches. -/
def SmartHome.runCommands (h : SmartHome) (calls : List Call) : SmartHome :=
  calls.foldl (fun s c => (s.executeCommand c.t0 c.t1 c.command).home) h

/-- The registry of `main` with every clock reading `T`. -/
def demoHome : SmartHome := mainHome "T".toList

/-- A light named `Lamp` that is on at brightness 40. -/
def lampOn : Light := { name := "Lamp".toList, isOn := true, brightness := 40 }

/-- A light named `Lamp` that is off, with brightness 0. -/
def lampOff : Light := Light.new "Lamp".toList

/-- A thermostat as constructed, named `Main Thermostat`. -/
def mainThermostat : Thermostat := Thermostat.new "Main Thermostat".toList

/-- A camera as constructed, named `Front Door Camera`. -/
def frontDoorCamera : SecurityCamera := SecurityCamera.new "Front Door Camera".toList

/-- The position `j` holds the first device, in insertion order, whose name is `n`. -/
def isFirstNamed (ds : List DevicePtr) (n : Str) (j : Nat) : Prop :=
  (∃ d, ds[j]? = some d ∧ d.getName = n) ∧
  ∀ k, k < j → ∀ e, ds[k]? = some e → e.getName ≠ n

/-- What the specification says of `sanitizeDeviceName`: the string with every `<` and `>`
removed and every other character kept, in the original order. -/
def removeAngleBrackets : Str → Str
  | [] => []
  | c :: cs => if c = '<' ∨ c = '>' then removeAngleBrackets cs else c :: removeAngleBrackets cs

/-- One call of `logCommand`: the clock reading and the command. -/
structure LogCall where
  timestamp : Str
  command : Str
  deriving DecidableEq, Repr

/-- The entry that `logCommand` pushes on the history (line 64). -/
def LogCall.entry (c : LogCall) : Str :=
  c.timestamp ++ " - ".toList ++ c.command

/-- The logger after a finite sequence of `logCommand` calls. -/
def Logger.logCommands (lg : Logger) (calls : List LogCall) : Logger :=
  calls.foldl (fun l c => l.logCommand c.timestamp c.command) lg

/-- A registry with two lights of the same name, the first off and the second on. -/
def twinHome : SmartHome :=
  { devices := [.light lampOff, .light lampOn], logger := Logger.new }

/-! # Theorems -/

/-! ## Lookup and range lemmas -/

theorem find_if_none (ds : List DevicePtr) (n : Str)
    (hn : ∀ d ∈ ds, d.getName ≠ n) : find_if ds n = none := by
  induction ds with
  | nil => rfl
  | cons d ds ih =>
    have h1 : d.getName ≠ n := hn d (List.mem_cons_self _ _)
    have h2 := ih (fun e he => hn e (List.mem_cons_of_mem _ he))
    simp [find_if, h1, h2]

theorem find_if_some (ds : List DevicePtr) (n : Str) (i : Nat) (d : DevicePtr)
    (hf : find_if ds n = some (i, d)) : ds[i]? = some d ∧ d.getName = n := by
  induction ds generalizing i with
  | nil => simp [find_if] at hf
  | cons e ds ih =>
    unfold find_if at hf
    split at hf
    · rename_i hname
      simp only [Option.some.injEq, Prod.mk.injEq] at hf
      obtain ⟨rfl, rfl⟩ := hf
      exact ⟨by simp, hname⟩
    · split at hf
      · rename_i j e2 hj
        simp only [Option.some.injEq, Prod.mk.injEq] at hf
        obtain ⟨rfl, rfl⟩ := hf
        have := ih j hj
        simpa using this
      · simp at hf

theorem turnOn_inRange (d : DevicePtr) (hd : d.inRange) : d.turnOn.inRange := by
  cases d <;> simp_all [DevicePtr.turnOn, DevicePtr.inRange, Light.turnOn, Thermostat.turnOn]

theorem turnOff_inRange (d : DevicePtr) (hd : d.inRange) : d.turnOff.inRange := by
  cases d <;> simp_all [DevicePtr.turnOff, DevicePtr.inRange, Light.turnOff, Thermostat.turnOff]

theorem adjustSetting_inRange (d : DevicePtr) (v : Int) (hd : d.inRange) :
    (d.adjustSetting v).self.inRange := by
  cases d with
  | light l =>
    simp only [DevicePtr.adjustSetting, Light.adjustSetting]
    split
    · exact hd
    · split
      · exact hd
      · rename_i hv
        simp only [DevicePtr.inRange]
        omega
  | thermostat t =>
    simp only [DevicePtr.adjustSetting, Thermostat.adjustSetting]
    split
    · exact hd
    · rename_i hv
      simp only [DevicePtr.inRange]
      omega
  | camera c => trivial

theorem tryBlock_inRange (now : Str) (h : SmartHome) (p : Parsed)
    (hh : ∀ d ∈ h.devices, d.inRange) : ∀ d ∈ (tryBlock now h p).self.devices, d.inRange := by
  unfold tryBlock
  split
  · exact hh
  · rename_i i d hf
    have hd : d.inRange := hh d (List.getElem?_mem (find_if_some _ _ _ _ hf).1)
    have hset : ∀ e : DevicePtr, e.inRange → ∀ x ∈ h.devices.set i e, x.inRange := by
      intro e he x hx
      rcases List.mem_or_eq_of_mem_set hx with hx | hx
      · exact hh x hx
      · exact hx ▸ he
    split
    · exact hset _ (turnOn_inRange d hd)
    · split
      · exact hset _ (turnOff_inRange d hd)
      · split
        · exact hh
        · split
          · dsimp only
            split
            · exact hset _ (adjustSetting_inRange d _ hd)
            · exact hset _ (adjustSetting_inRange d _ hd)
          · exact hh

theorem executeCommand_inRange (h : SmartHome) (t0 t1 command : Str)
    (hh : ∀ d ∈ h.devices, d.inRange) :
    ∀ d ∈ (h.executeCommand t0 t1 command).home.devices, d.inRange := by
  unfold SmartHome.executeCommand
  split
  · exact hh
  · exact hh
  · rename_i p hp
    have := tryBlock_inRange t1 { h with logger := h.logger.logCommand t0 command } p hh
    dsimp only
    split
    · exact this
    · exact this

theorem isFresh_inRange (d : DevicePtr) (hd : d.isFresh) : d.inRange := by
  cases d with
  | light l =>
    have : l.brightness = 0 := by
      have h2 := congrArg Light.brightness (show l = Light.new l.name from hd)
      simpa [Light.new] using h2
    simp [DevicePtr.inRange, this]
  | thermostat t =>
    have : t.temperature = 20 := by
      have h2 := congrArg Thermostat.temperature (show t = Thermostat.new t.name from hd)
      simpa [Thermostat.new] using h2
    simp [DevicePtr.inRange, this]
  | camera c => trivial

theorem runCommands_inRange (calls : List Call) (h : SmartHome)
    (hh : ∀ d ∈ h.devices, d.inRange) : ∀ d ∈ (h.runCommands calls).devices, d.inRange := by
  induction calls generalizing h with
  | nil => exact hh
  | cons c cs ih =>
    exact ih _ (executeCommand_inRange h c.t0 c.t1 c.command hh)

/-! ## Parsing lemmas -/

theorem isdigit_not_isspace (c : Char) (hc : isdigit c = true) : isspace c = false := by
  simp only [isdigit, isspace, Bool.and_eq_true, decide_eq_true_eq] at *
  have h0 : '0'.toNat = 48 := by decide
  have h9 : '9'.toNat = 57 := by decide
  rw [h0, h9] at hc
  simp only [Bool.or_eq_false_iff, Bool.and_eq_false_iff, beq_eq_false_iff_ne, ne_eq,
    decide_eq_false_iff_not]
  omega

theorem isdigit_ne (c x : Char) (hc : isdigit c = true) (hx : isdigit x = false) : c ≠ x := by
  intro h
  rw [h, hx] at hc
  exact Bool.noConfusion hc

theorem find_last_of_none (s : Str) (c : Char) (hs : c ∉ s) : find_last_of s c = none := by
  induction s with
  | nil => rfl
  | cons x xs ih =>
    have hx : x ≠ c := fun h => hs (h ▸ List.mem_cons_self _ _)
    have hxs : c ∉ xs := fun h => hs (List.mem_cons_of_mem _ h)
    simp [find_last_of, ih hxs, hx]

theorem find_last_of_append (n d : Str) (c : Char) (hd : c ∉ d) :
    find_last_of (n ++ c :: d) c = some n.length := by
  induction n with
  | nil => simp [find_last_of, find_last_of_none d c hd]
  | cons x xs ih => simp [find_last_of, ih]

theorem eraseRemove_id (s : Str) (c : Char) (hs : c ∉ s) : eraseRemove s c = s := by
  unfold eraseRemove
  rw [List.filter_eq_self]
  intro a ha
  have : a ≠ c := fun h => hs (h ▸ ha)
  simpa using this

theorem sanitizeDeviceName_id (s : Str) (h1 : '<' ∉ s) (h2 : '>' ∉ s) :
    sanitizeDeviceName s = s := by
  simp only [sanitizeDeviceName]
  rw [eraseRemove_id s _ h1, eraseRemove_id s _ h2]

theorem stoi_digits (d : Str) (hne : d ≠ []) (hd : ∀ c ∈ d, isdigit c = true)
    (hfit : (decimalValue d : Int) ≤ INT_MAX) : stoi d = .ok (decimalValue d : Int) := by
  obtain ⟨c, r, rfl⟩ := List.exists_cons_of_ne_nil hne
  have hc : isdigit c = true := hd c (List.mem_cons_self _ _)
  have hsp : isspace c = false := isdigit_not_isspace c hc
  have hm : c ≠ '-' := isdigit_ne c '-' hc (by decide)
  have hp : c ≠ '+' := isdigit_ne c '+' hc (by decide)
  have htw : List.takeWhile isdigit (c :: r) = c :: r := by
    rw [List.takeWhile_eq_self_iff]
    exact hd
  have hdw : List.dropWhile isspace (c :: r) = c :: r := by
    simp [List.dropWhile, hsp]
  unfold stoi
  rw [hdw]
  have hmatch : (match (c :: r : Str) with
      | '-' :: r => (true, r)
      | '+' :: r => (false, r)
      | r => (false, r)) = (false, c :: r) := by
    split
    · rename_i heq
      exact absurd (List.cons.inj heq).1 hm
    · rename_i heq
      exact absurd (List.cons.inj heq).1 hp
    · rfl
  simp only [hmatch, htw]
  have hlow : ¬ ((decimalValue (c :: r) : Int) < INT_MIN) := by
    have : (0 : Int) ≤ (decimalValue (c :: r) : Int) := Int.ofNat_nonneg _
    unfold INT_MIN
    omega
  have hhigh : ¬ (INT_MAX < (decimalValue (c :: r) : Int)) := by omega
  simp [hlow, hhigh]

theorem commandAction_set (rest : Str) :
    commandAction ('s' :: 'e' :: 't' :: ' ' :: rest) = "set".toList := by
  rfl

theorem extractToken_set_rest (rest : Str) :
    (extractToken ('s' :: 'e' :: 't' :: ' ' :: rest)).2 = ' ' :: rest := by
  rfl

theorem commandRemainder_set (n tail : Str) (c : Char) (hc : c ≠ ' ')
    (hline : '\n' ∉ c :: (n ++ tail)) :
    commandRemainder ('s' :: 'e' :: 't' :: ' ' :: c :: (n ++ tail)) = c :: (n ++ tail) := by
  unfold commandRemainder
  rw [extractToken_set_rest]
  have hg : getline (' ' :: c :: (n ++ tail)) = ' ' :: c :: (n ++ tail) := by
    unfold getline
    rw [List.takeWhile_eq_self_iff]
    intro x hx
    rcases List.mem_cons.1 hx with hx | hx
    · subst hx; decide
    · have : x ≠ '\n' := fun h => hline (h ▸ hx)
      simpa using this
  simp only [hg]
  simp [find_first_not_of, hc, erasePrefix]

theorem decimalValue_append (s : Str) (c : Char) :
    decimalValue (s ++ [c]) = decimalValue s * 10 + digitValue c := by
  simp [decimalValue, List.foldl_append]

theorem decimalValue_eq_ofDigits (s : Str) :
    decimalValue s = Nat.ofDigits 10 (s.reverse.map digitValue) := by
  induction s using List.reverseRecOn with
  | nil => simp [decimalValue]
  | append_singleton s c ih =>
    rw [decimalValue_append, ih]
    simp [Nat.ofDigits_cons]
    ring

theorem isNumeric_digits (d : Str) (hne : d ≠ []) (hd : ∀ c ∈ d, isdigit c = true) :
    isNumeric d = true := by
  cases d with
  | nil => exact absurd rfl hne
  | cons c r =>
    simp only [isNumeric, List.isEmpty_cons, Bool.not_false, Bool.true_and, List.all_eq_true]
    exact hd

theorem isNumeric_false (tok : Str) (hbad : ¬ (tok ≠ [] ∧ ∀ c ∈ tok, isdigit c = true)) :
    isNumeric tok = false := by
  cases tok with
  | nil => rfl
  | cons c r =>
    cases hnum : isNumeric (c :: r) with
    | false => rfl
    | true =>
      simp only [isNumeric, List.isEmpty_cons, Bool.not_false, Bool.true_and,
        List.all_eq_true] at hnum
      exact absurd ⟨List.cons_ne_nil _ _, hnum⟩ hbad

theorem space_not_mem_digits (d : Str) (hd : ∀ c ∈ d, isdigit c = true) : ' ' ∉ d := by
  intro h
  have := hd _ h
  exact absurd this (by decide)

theorem line_feed_not_mem_digits (d : Str) (hd : ∀ c ∈ d, isdigit c = true) : '\n' ∉ d := by
  intro h
  have := hd _ h
  exact absurd this (by decide)

theorem parseCommand_set_split (command pre tok : Str)
    (hact : commandAction command = "set".toList)
    (hrem : commandRemainder command = pre ++ ' ' :: tok) (htok : ' ' ∉ tok) :
    parseCommand command =
      if !isNumeric tok then .returned
      else
        match stoi tok with
        | .error e => .threw e
        | .ok v =>
          .parsed { action := "set".toList, deviceName := sanitizeDeviceName pre,
                    settingStr := tok, settingValue := v, hasSetting := true } := by
  unfold parseCommand
  simp only [hact, hrem, if_true, find_last_of_append pre tok ' ' htok]
  have h1 : substr (pre ++ ' ' :: tok) 0 pre.length = pre := by
    simp [substr]
  have h2 : substrFrom (pre ++ ' ' :: tok) (pre.length + 1) = tok := by
    simp [substrFrom]
  rw [h1, h2]

/-! ## C strings -/

theorem c_str_id (s : Str) (hs : '\x00' ∉ s) : c_str s = s := by
  unfold c_str
  rw [List.takeWhile_eq_self_iff]
  intro c hc
  have : c ≠ '\x00' := fun h => hs (h ▸ hc)
  simpa using this

theorem c_str_append (pre s : Str) (hpre : '\x00' ∉ pre) : c_str (pre ++ s) = pre ++ c_str s := by
  unfold c_str
  rw [List.takeWhile_append_of_pos]
  intro c hc
  have : c ≠ '\x00' := fun h => hpre (h ▸ hc)
  simpa using this

theorem c_str_not_found (name : Str) :
    c_str ("Device not found: ".toList ++ name) = "Device not found: ".toList ++ c_str name :=
  c_str_append _ _ (by decide)

/-! ## Further rejected setting tokens -/

theorem executeCommand_rejects_minus_five :
    (demoHome.executeCommand [] [] "set Main Thermostat -5".toList).outcome = .invalidSetting ∧
    (demoHome.executeCommand [] [] "set Main Thermostat -5".toList).home.devices
      = demoHome.devices := by
  decide

theorem executeCommand_rejects_empty_setting :
    (demoHome.executeCommand [] [] "set Main Thermostat ".toList).outcome = .invalidSetting ∧
    (demoHome.executeCommand [] [] "set Main Thermostat ".toList).home.devices
      = demoHome.devices := by
  decide

/-! ## Properties of the specification -/

/-- C1 (defect in the code): the claim says that no failure leaves `executeCommand`.
On the line `set Main Thermostat 99999999999` the setting token passes `isNumeric`,
and `std::stoi` of line 261, which stands before the `try` block, throws
`std::out_of_range`: for every registry the call ends with that exception
uncaught. -/
theorem executeCommand_stoi_overflow_uncaught (h : SmartHome) (t0 t1 : Str) :
    (h.executeCommand t0 t1 "set Main Thermostat 99999999999".toList).outcome
      = .uncaught (.out_of_range "stoi".toList) := by
  have hp : parseCommand "set Main Thermostat 99999999999".toList
      = .threw (.out_of_range "stoi".toList) := by decide
  simp only [SmartHome.executeCommand, hp]

/-- C2: starting from a registry of freshly constructed devices, after any finite
sequence of `executeCommand` calls on arbitrary lines every light has
brightness in 0..100 and every thermostat has temperature in 0..40. -/
theorem runCommands_keeps_ranges (h0 : SmartHome) (calls : List Call)
    (hfresh : ∀ d ∈ h0.devices, d.isFresh) :
    ∀ d ∈ (h0.runCommands calls).devices, d.inRange :=
  runCommands_inRange calls h0 (fun d hd => isFresh_inRange d (hfresh d hd))

/-- Witness for C2: the registry of `main` and three commands. -/
theorem runCommands_keeps_ranges_witness :
    (∀ d ∈ demoHome.devices, d.isFresh) ∧
    ∀ d ∈ (demoHome.runCommands
        [⟨[], [], "on Living Room Light".toList⟩,
         ⟨[], [], "set Living Room Light 150".toList⟩,
         ⟨[], [], "set Main Thermostat 25".toList⟩]).devices, d.inRange :=
  ⟨by decide, runCommands_keeps_ranges _ _ (by decide)⟩

/-- C3: for a light that is on, `adjustSetting v` with 0 ≤ v ≤ 100 throws nothing
and leaves the light with brightness `v`, name and on-state as before; with
`v < 0` or `v > 100` it throws `out_of_range` and leaves the light as it was. -/
theorem Light_adjustSetting_on (l : Light) (v : Int) (hon : l.isOn = true) :
    (0 ≤ v ∧ v ≤ 100 →
      (l.adjustSetting v).thrown = none ∧
      (l.adjustSetting v).self = { l with brightness := v }) ∧
    (v < 0 ∨ v > 100 →
      (l.adjustSetting v).thrown
        = some (.out_of_range "Brightness must be between 0 and 100".toList) ∧
      (l.adjustSetting v).self = l) := by
  constructor
  · intro hv
    have hnot : ¬ (v < 0 ∨ v > 100) := by omega
    simp [Light.adjustSetting, hon, hnot]
  · intro hv
    simp [Light.adjustSetting, hon, hv]

/-- Witness for C3: a lit lamp set to 75, and to 150. -/
theorem Light_adjustSetting_on_witness :
    lampOn.isOn = true ∧
    ((lampOn.adjustSetting 75).thrown = none ∧
      (lampOn.adjustSetting 75).self = { lampOn with brightness := 75 }) ∧
    ((lampOn.adjustSetting 150).thrown
        = some (.out_of_range "Brightness must be between 0 and 100".toList) ∧
      (lampOn.adjustSetting 150).self = lampOn) :=
  ⟨rfl, (Light_adjustSetting_on lampOn 75 rfl).1 (by decide),
    (Light_adjustSetting_on lampOn 150 rfl).2 (by decide)⟩

/-- C4: for a thermostat, on or off, `adjustSetting v` with 0 ≤ v ≤ 40 throws
nothing and leaves the thermostat with temperature `v`, name and on-state as
before; otherwise it throws `out_of_range` and leaves the thermostat as it was. -/
theorem Thermostat_adjustSetting_range (t : Thermostat) (v : Int) :
    (0 ≤ v ∧ v ≤ 40 →
      (t.adjustSetting v).thrown = none ∧
      (t.adjustSetting v).self = { t with temperature := v }) ∧
    (¬ (0 ≤ v ∧ v ≤ 40) →
      (t.adjustSetting v).thrown
        = some (.out_of_range "Temperature must be between 0 and 40 degrees Celsius".toList) ∧
      (t.adjustSetting v).self = t) := by
  constructor
  · intro hv
    have hnot : ¬ (v < 0 ∨ v > 40) := by omega
    simp [Thermostat.adjustSetting, hnot]
  · intro hv
    have hout : v < 0 ∨ v > 40 := by omega
    simp [Thermostat.adjustSetting, hout]

/-- Witness for C4: a thermostat that is off, set to 25 and to 41. -/
theorem Thermostat_adjustSetting_range_witness :
    mainThermostat.isOn = false ∧
    ((mainThermostat.adjustSetting 25).thrown = none ∧
      (mainThermostat.adjustSetting 25).self = { mainThermostat with temperature := 25 }) ∧
    ((mainThermostat.adjustSetting 41).thrown
        = some (.out_of_range "Temperature must be between 0 and 40 degrees Celsius".toList) ∧
      (mainThermostat.adjustSetting 41).self = mainThermostat) :=
  ⟨rfl, (Thermostat_adjustSetting_range mainThermostat 25).1 (by decide),
    (Thermostat_adjustSetting_range mainThermostat 41).2 (by decide)⟩

/-- C5: for a light that is off and any `v`, `adjustSetting v` throws nothing and
leaves the light exactly as it was; it only writes the warning line. -/
theorem Light_adjustSetting_off (l : Light) (v : Int) (hoff : l.isOn = false) :
    (l.adjustSetting v).thrown = none ∧
    (l.adjustSetting v).self = l ∧
    (l.adjustSetting v).cout
      = [RED ++ "Cannot adjust brightness while the light is off.".toList ++ RESET] := by
  simp [Light.adjustSetting, hoff]

/-- Witness for C5: a lamp that is off, asked for brightness 500. -/
theorem Light_adjustSetting_off_witness :
    lampOff.isOn = false ∧
    (lampOff.adjustSetting 500).thrown = none ∧
    (lampOff.adjustSetting 500).self = lampOff ∧
    (lampOff.adjustSetting 500).cout
      = [RED ++ "Cannot adjust brightness while the light is off.".toList ++ RESET] :=
  ⟨rfl, Light_adjustSetting_off lampOff 500 rfl⟩

/-- C6 as stated fails: `adjustSetting 5` on a camera throws nothing. -/
theorem SecurityCamera_adjustSetting_no_error :
    ¬ ∃ e, ((DevicePtr.camera frontDoorCamera).adjustSetting 5).thrown = some e := by
  rintro ⟨e, he⟩
  cases he

/-- C6 (amended): for every camera, in any state, and every `v`, `adjustSetting v`
is the inherited empty `Device::adjustSetting`: it throws nothing, writes
nothing and leaves the camera as it was. -/
theorem SecurityCamera_adjustSetting_noop (c : SecurityCamera) (v : Int) :
    (DevicePtr.camera c).adjustSetting v
      = { self := .camera c, cout := [], thrown := none } := by
  rfl

/-- C7: for a light in any state, `turnOn` gives on-state true and brightness 100,
and `turnOff` gives on-state false and brightness 0; the name is kept. -/
theorem Light_turnOn_turnOff (l : Light) :
    l.turnOn = { name := l.name, isOn := true, brightness := 100 } ∧
    l.turnOff = { name := l.name, isOn := false, brightness := 0 } := by
  constructor <;> rfl

/-- C8 as stated fails: the name `a\nb` meets every condition of the claim, yet
`std::getline` stops at the line feed, so on `set a\nb 5` the remainder is `a`,
no space is found, and the device name and the setting stay empty. -/
theorem parseCommand_set_name_with_line_feed :
    ("a\nb".toList ≠ [] ∧ "a\nb".toList.head? ≠ some ' ' ∧
      '<' ∉ "a\nb".toList ∧ '>' ∉ "a\nb".toList ∧ "5".toList ≠ [] ∧
      (∀ c ∈ "5".toList, isdigit c = true) ∧ (decimalValue "5".toList : Int) ≤ INT_MAX) ∧
    parseCommand ("set ".toList ++ "a\nb".toList ++ " ".toList ++ "5".toList)
      = .parsed { action := "set".toList, deviceName := [], settingStr := [],
                  settingValue := 0, hasSetting := false } ∧
    ¬ ∃ p, parseCommand ("set ".toList ++ "a\nb".toList ++ " ".toList ++ "5".toList) = .parsed p ∧
        p.deviceName = "a\nb".toList ∧ p.settingValue = (decimalValue "5".toList : Int) := by
  refine ⟨by decide, by decide, ?_⟩
  rintro ⟨p, hp, hname, -⟩
  have h2 : parseCommand ("set ".toList ++ "a\nb".toList ++ " ".toList ++ "5".toList)
      = .parsed { action := "set".toList, deviceName := [], settingStr := [],
                  settingValue := 0, hasSetting := false } := by decide
  rw [h2] at hp
  injection hp with hp
  rw [← hp] at hname
  exact absurd hname (by decide)

/-- C8 (amended): for a non-empty name `n` that does not begin with a space and
contains no angle bracket and no line feed, and a non-empty string `d` of ASCII
digits whose value fits in `int`, the parse section of `executeCommand` on
`"set " ++ n ++ " " ++ d` reaches the `try` block with device name exactly `n`,
setting value the decimal value of `d`, and `hasSetting` true. -/
theorem parseCommand_set_name_value (n d : Str)
    (hn : n ≠ []) (hsp : n.head? ≠ some ' ')
    (hlt : '<' ∉ n) (hgt : '>' ∉ n) (hnl : '\n' ∉ n)
    (hd : d ≠ []) (hdig : ∀ c ∈ d, isdigit c = true)
    (hfit : (decimalValue d : Int) ≤ INT_MAX) :
    parseCommand ("set ".toList ++ n ++ " ".toList ++ d)
      = .parsed { action := "set".toList, deviceName := n, settingStr := d,
                  settingValue := (decimalValue d : Int), hasSetting := true } := by
  obtain ⟨c, r, rfl⟩ := List.exists_cons_of_ne_nil hn
  have hc : c ≠ ' ' := by
    intro h
    exact hsp (by simp [h])
  have hline : '\n' ∉ c :: (r ++ ' ' :: d) := by
    intro h
    have h2 : '\n' ∈ (c :: r) ++ ' ' :: d := by simpa using h
    rcases List.mem_append.1 h2 with h3 | h3
    · exact hnl h3
    · rcases List.mem_cons.1 h3 with h4 | h4
      · exact absurd h4 (by decide)
      · exact line_feed_not_mem_digits d hdig h4
  have hshape : "set ".toList ++ (c :: r) ++ " ".toList ++ d
      = 's' :: 'e' :: 't' :: ' ' :: c :: (r ++ ' ' :: d) := by
    simp
  rw [hshape]
  rw [parseCommand_set_split _ (c :: r) d (commandAction_set _)
    (by rw [commandRemainder_set r (' ' :: d) c hc hline]; simp)
    (space_not_mem_digits d hdig)]
  simp [isNumeric_digits d hd hdig, stoi_digits d hd hdig hfit,
    sanitizeDeviceName_id _ hlt hgt]

/-- Witness for C8: `set Living Room Light 75` gives `Living Room Light` and 75. -/
theorem parseCommand_set_name_value_witness :
    ("Living Room Light".toList ≠ [] ∧ "Living Room Light".toList.head? ≠ some ' ' ∧
      '<' ∉ "Living Room Light".toList ∧ '>' ∉ "Living Room Light".toList ∧
      '\n' ∉ "Living Room Light".toList ∧ "75".toList ≠ [] ∧
      (∀ c ∈ "75".toList, isdigit c = true) ∧ (decimalValue "75".toList : Int) ≤ INT_MAX) ∧
    parseCommand "set Living Room Light 75".toList
      = .parsed { action := "set".toList, deviceName := "Living Room Light".toList,
                  settingStr := "75".toList, settingValue := 75, hasSetting := true } :=
  ⟨by decide,
    parseCommand_set_name_value "Living Room Light".toList "75".toList (by decide) (by decide)
      (by decide) (by decide) (by decide) (by decide) (by decide) (by decide)⟩

/-- C9: when the action token is `set`, the remainder is `pre ++ " " ++ tok` with no
space in `tok` (so `tok` is the text after the last space), and `tok` is not a
non-empty string of ASCII digits, `executeCommand` takes the early return of
line 259: the outcome is the invalid-setting error, the devices are exactly as
before, and the log gains only the raw command record, so no lookup result and
no device operation is recorded or applied. -/
theorem executeCommand_set_invalid_setting (h : SmartHome) (t0 t1 command pre tok : Str)
    (hact : commandAction command = "set".toList)
    (hrem : commandRemainder command = pre ++ ' ' :: tok) (htok : ' ' ∉ tok)
    (hbad : ¬ (tok ≠ [] ∧ ∀ c ∈ tok, isdigit c = true)) :
    h.executeCommand t0 t1 command =
      { home := { devices := h.devices, logger := h.logger.logCommand t0 command }
        console := [RED ++
          "Error: Invalid setting value. Please provide a numeric value.".toList ++ RESET]
        outcome := .invalidSetting } := by
  have hp : parseCommand command = .returned := by
    rw [parseCommand_set_split command pre tok hact hrem htok, isNumeric_false tok hbad]
    rfl
  simp only [SmartHome.executeCommand, hp]

/-- Witness for C9: `set Living Room Light notanumber` on the registry of `main`. -/
theorem executeCommand_set_invalid_setting_witness :
    (commandAction "set Living Room Light notanumber".toList = "set".toList ∧
      commandRemainder "set Living Room Light notanumber".toList
        = "Living Room Light".toList ++ ' ' :: "notanumber".toList ∧
      ' ' ∉ "notanumber".toList ∧
      ¬ ("notanumber".toList ≠ [] ∧ ∀ c ∈ "notanumber".toList, isdigit c = true)) ∧
    demoHome.executeCommand [] [] "set Living Room Light notanumber".toList =
      { home := { devices := demoHome.devices
                  logger := demoHome.logger.logCommand []
                    "set Living Room Light notanumber".toList }
        console := [RED ++
          "Error: Invalid setting value. Please provide a numeric value.".toList ++ RESET]
        outcome := .invalidSetting } :=
  ⟨by decide,
    executeCommand_set_invalid_setting demoHome [] [] _ "Living Room Light".toList
      "notanumber".toList (by decide) (by decide) (by decide) (by decide)⟩

/-- C10 as stated fails: on `on a`, NUL, `b` the action is not `set` and no device of
`main` has that name, yet the handler reads the message through `what()`,
which ends at the NUL: the console line and the `ERROR` record say
`Device not found: a`, which does not name the target. -/
theorem executeCommand_not_found_name_cut_at_nul :
    (commandAction "on a\x00b".toList ≠ "set".toList ∧
      sanitizeDeviceName (commandRemainder "on a\x00b".toList) = "a\x00b".toList ∧
      ∀ d ∈ demoHome.devices, d.getName ≠ "a\x00b".toList) ∧
    (demoHome.executeCommand [] [] "on a\x00b".toList).console
      = [RED ++ "Error: Device not found: a".toList ++ RESET] ∧
    (demoHome.executeCommand [] [] "on a\x00b".toList).home.logger.logFile.getLast?
      = some " - State Change: ERROR - Device not found: a".toList ∧
    (demoHome.executeCommand [] [] "on a\x00b".toList).console
      ≠ [RED ++ "Error: Device not found: a\x00b".toList ++ RESET] := by
  decide

/-- C10 (amended): when the action token is not `set` and no device is named as the
sanitized remainder, `executeCommand` ends in the handler with
`runtime_error("Device not found: " + name)`; the console line and the `ERROR`
record carry that message as `what()` gives it, which is `Device not found: `
followed by the name up to its first NUL, and the whole name when it has no
NUL; the devices are exactly as before and the log gains the raw command
record and the `ERROR` record. -/
theorem executeCommand_device_not_found (h : SmartHome) (t0 t1 command : Str)
    (hact : commandAction command ≠ "set".toList)
    (hnone : ∀ d ∈ h.devices, d.getName ≠ sanitizeDeviceName (commandRemainder command)) :
    h.executeCommand t0 t1 command =
      { home :=
          { devices := h.devices
            logger := (h.logger.logCommand t0 command).logStateChange t1 "ERROR".toList
              ("Device not found: ".toList ++
                c_str (sanitizeDeviceName (commandRemainder command))) }
        console := [RED ++ "Error: ".toList ++
          ("Device not found: ".toList ++
            c_str (sanitizeDeviceName (commandRemainder command))) ++ RESET]
        outcome := .caught (.runtime_error
          ("Device not found: ".toList ++ sanitizeDeviceName (commandRemainder command))) } ∧
    ('\x00' ∉ sanitizeDeviceName (commandRemainder command) →
      c_str (sanitizeDeviceName (commandRemainder command))
        = sanitizeDeviceName (commandRemainder command)) := by
  have hp : parseCommand command
      = .parsed { action := commandAction command,
                  deviceName := sanitizeDeviceName (commandRemainder command),
                  settingStr := [], settingValue := 0, hasSetting := false } := by
    unfold parseCommand
    simp only [hact, if_false]
  have hf := find_if_none h.devices _ hnone
  refine ⟨?_, c_str_id _⟩
  simp only [SmartHome.executeCommand, hp, tryBlock, hf, Exn.what, Exn.message,
    List.nil_append, c_str_not_found]

/-- Witness for C10: `on Unknown Device` on the registry of `main`. -/
theorem executeCommand_device_not_found_witness :
    (commandAction "on Unknown Device".toList ≠ "set".toList ∧
      ∀ d ∈ demoHome.devices,
        d.getName ≠ sanitizeDeviceName (commandRemainder "on Unknown Device".toList)) ∧
    demoHome.executeCommand [] [] "on Unknown Device".toList =
      { home :=
          { devices := demoHome.devices
            logger := (demoHome.logger.logCommand [] "on Unknown Device".toList).logStateChange []
              "ERROR".toList "Device not found: Unknown Device".toList }
        console := [RED ++ "Error: Device not found: Unknown Device".toList ++ RESET]
        outcome := .caught (.runtime_error "Device not found: Unknown Device".toList) } :=
  ⟨by decide,
    (executeCommand_device_not_found demoHome [] [] "on Unknown Device".toList
      (by decide) (by decide)).1⟩

/-! ## The handler and the log -/

theorem parseCommand_set_no_space (command : Str)
    (hact : commandAction command = "set".toList) (hrem : ' ' ∉ commandRemainder command) :
    parseCommand command
      = .parsed { action := "set".toList, deviceName := [], settingStr := [],
                  settingValue := 0, hasSetting := false } := by
  unfold parseCommand
  simp only [hact, if_true, find_last_of_none _ _ hrem]

theorem executeCommand_caught_logs_error (h : SmartHome) (t0 t1 command : Str) (e : Exn)
    (hout : (h.executeCommand t0 t1 command).outcome = .caught e) :
    (h.executeCommand t0 t1 command).home.logger.logFile.getLast?
      = some (t1 ++ " - State Change: ".toList ++ "ERROR".toList ++ " - ".toList ++ e.what) := by
  unfold SmartHome.executeCommand at hout ⊢
  split at hout
  · simp at hout
  · simp at hout
  · rename_i p hp
    simp only [hp]
    dsimp only at hout ⊢
    split at hout
    · simp at hout
    · rename_i e2 he2
      simp only [Exec.mk.injEq, Outcome.caught.injEq] at hout
      have he : e2 = e := by simpa using hout
      subst he
      simp only [he2, Logger.logStateChange]
      simp

theorem removeAngleBrackets_eq_filter (s : Str) :
    removeAngleBrackets s = s.filter (fun c => c != '<' && c != '>') := by
  induction s with
  | nil => rfl
  | cons c cs ih =>
    by_cases h1 : c = '<'
    · simp [removeAngleBrackets, h1, ih]
    · by_cases h2 : c = '>'
      · simp [removeAngleBrackets, h2, ih]
      · simp [removeAngleBrackets, h1, h2, ih]

theorem sanitizeDeviceName_eq_filter (s : Str) :
    sanitizeDeviceName s = s.filter (fun c => c != '<' && c != '>') := by
  simp only [sanitizeDeviceName, eraseRemove, List.filter_filter]
  congr 1
  funext c
  exact Bool.and_comm _ _

/-! ## The command history -/

theorem logCommand_history (lg : Logger) (ts cmd : Str) :
    (lg.logCommand ts cmd).commandHistory =
      if (lg.commandHistory ++ [ts ++ " - ".toList ++ cmd]).length > MAX_HISTORY_SIZE
      then (lg.commandHistory ++ [ts ++ " - ".toList ++ cmd]).tail
      else lg.commandHistory ++ [ts ++ " - ".toList ++ cmd] := by
  rfl

theorem logCommand_history_getLast (lg : Logger) (ts cmd : Str) :
    (lg.logCommand ts cmd).commandHistory.getLast? = some (ts ++ " - ".toList ++ cmd) := by
  rw [logCommand_history]
  split
  · rename_i hlen
    cases hh : lg.commandHistory with
    | nil =>
      rw [hh] at hlen
      simp [MAX_HISTORY_SIZE] at hlen
    | cons x xs => simp
  · simp

theorem logCommands_snoc (lg : Logger) (calls : List LogCall) (c : LogCall) :
    lg.logCommands (calls ++ [c]) = (lg.logCommands calls).logCommand c.timestamp c.command := by
  simp [Logger.logCommands, List.foldl_append]

theorem logCommands_history (lg : Logger) (calls : List LogCall)
    (hempty : lg.commandHistory = []) :
    (lg.logCommands calls).commandHistory
      = (calls.map LogCall.entry).drop (calls.length - MAX_HISTORY_SIZE) := by
  induction calls using List.reverseRecOn with
  | nil => simp [Logger.logCommands, hempty]
  | append_singleton cs c ih =>
    rw [logCommands_snoc, logCommand_history, ih]
    have hlen : ((cs.map LogCall.entry).drop (cs.length - MAX_HISTORY_SIZE)).length
        = min cs.length MAX_HISTORY_SIZE := by
      simp only [List.length_drop, List.length_map]
      omega
    simp only [List.length_append, hlen, List.length_singleton, List.map_append, List.map_cons,
      List.map_nil]
    have hentry : c.timestamp ++ " - ".toList ++ c.command = c.entry := rfl
    rw [hentry]
    by_cases hk : cs.length < MAX_HISTORY_SIZE
    · have h1 : ¬ (min cs.length MAX_HISTORY_SIZE + 1 > MAX_HISTORY_SIZE) := by omega
      have h2 : cs.length - MAX_HISTORY_SIZE = 0 := by omega
      have h3 : cs.length + 1 - MAX_HISTORY_SIZE = 0 := by omega
      simp only [h1, if_false, h2, h3, List.drop_zero]
    · have h1 : min cs.length MAX_HISTORY_SIZE + 1 > MAX_HISTORY_SIZE := by omega
      have h3 : cs.length + 1 - MAX_HISTORY_SIZE = (cs.length - MAX_HISTORY_SIZE) + 1 := by omega
      have hle : cs.length - MAX_HISTORY_SIZE ≤ (cs.map LogCall.entry).length := by
        simp only [List.length_map]
        omega
      simp only [h1, if_true, h3]
      rw [← List.drop_append_of_le_length hle, List.tail_drop]

theorem tryBlock_commandHistory (now : Str) (h : SmartHome) (p : Parsed) :
    (tryBlock now h p).self.logger.commandHistory = h.logger.commandHistory := by
  unfold tryBlock
  split
  · rfl
  · split
    · rfl
    · split
      · rfl
      · split
        · rfl
        · split
          · dsimp only
            split <;> rfl
          · rfl

theorem executeCommand_commandHistory (h : SmartHome) (t0 t1 command : Str) :
    (h.executeCommand t0 t1 command).home.logger.commandHistory
      = (h.logger.logCommand t0 command).commandHistory := by
  unfold SmartHome.executeCommand
  split
  · rfl
  · rfl
  · rename_i p hp
    have ht := tryBlock_commandHistory t1
      { devices := h.devices, logger := h.logger.logCommand t0 command } p
    dsimp only
    split
    · exact ht
    · exact ht

/-! ## The frame of a command -/

theorem find_if_first (ds : List DevicePtr) (n : Str) (i : Nat) (d : DevicePtr)
    (hf : find_if ds n = some (i, d)) : isFirstNamed ds n i := by
  refine ⟨⟨d, find_if_some ds n i d hf⟩, ?_⟩
  induction ds generalizing i with
  | nil => simp [find_if] at hf
  | cons x xs ih =>
    unfold find_if at hf
    split at hf
    · simp only [Option.some.injEq, Prod.mk.injEq] at hf
      obtain ⟨rfl, -⟩ := hf
      intro k hk
      exact absurd hk (Nat.not_lt_zero k)
    · rename_i hx
      split at hf
      · rename_i j e hj
        simp only [Option.some.injEq, Prod.mk.injEq] at hf
        obtain ⟨rfl, rfl⟩ := hf
        intro k hk e2 he2
        cases k with
        | zero =>
          have : e2 = x := by simpa using he2.symm
          rw [this]
          exact hx
        | succ k =>
          have he3 : xs[k]? = some e2 := by simpa using he2
          exact ih j hj k (by omega) e2 he3
      · simp at hf

theorem turnOn_getName (d : DevicePtr) : d.turnOn.getName = d.getName := by
  cases d <;> rfl

theorem turnOff_getName (d : DevicePtr) : d.turnOff.getName = d.getName := by
  cases d <;> rfl

theorem adjustSetting_getName (d : DevicePtr) (v : Int) :
    (d.adjustSetting v).self.getName = d.getName := by
  cases d with
  | light l =>
    simp only [DevicePtr.adjustSetting, Light.adjustSetting]
    split
    · rfl
    · split <;> rfl
  | thermostat t =>
    simp only [DevicePtr.adjustSetting, Thermostat.adjustSetting]
    split <;> rfl
  | camera c => rfl

theorem map_getName_set (ds : List DevicePtr) (i : Nat) (d e : DevicePtr)
    (hd : ds[i]? = some d) (hn : e.getName = d.getName) :
    (ds.set i e).map DevicePtr.getName = ds.map DevicePtr.getName := by
  induction ds generalizing i with
  | nil => rfl
  | cons x xs ih =>
    cases i with
    | zero =>
      have : d = x := by simpa using hd.symm
      simp [List.set, hn, this]
    | succ i =>
      have hd2 : xs[i]? = some d := by simpa using hd
      simp [List.set, ih i hd2]

theorem tryBlock_devices (now : Str) (h : SmartHome) (p : Parsed) :
    (tryBlock now h p).self.devices = h.devices ∨
    ∃ i d e, find_if h.devices p.deviceName = some (i, d) ∧ e.getName = d.getName ∧
      (tryBlock now h p).self.devices = h.devices.set i e := by
  unfold tryBlock
  split
  · exact Or.inl rfl
  · rename_i i d hf
    split
    · exact Or.inr ⟨i, d, _, hf, turnOn_getName d, rfl⟩
    · split
      · exact Or.inr ⟨i, d, _, hf, turnOff_getName d, rfl⟩
      · split
        · exact Or.inl rfl
        · split
          · dsimp only
            split
            · exact Or.inr ⟨i, d, _, hf, adjustSetting_getName d _, rfl⟩
            · exact Or.inr ⟨i, d, _, hf, adjustSetting_getName d _, rfl⟩
          · exact Or.inl rfl

theorem executeCommand_devices (h : SmartHome) (t0 t1 command : Str) :
    (h.executeCommand t0 t1 command).home.devices = h.devices ∨
    ∃ p i d e, parseCommand command = .parsed p ∧
      find_if h.devices p.deviceName = some (i, d) ∧ e.getName = d.getName ∧
      (h.executeCommand t0 t1 command).home.devices = h.devices.set i e := by
  unfold SmartHome.executeCommand
  split
  · exact Or.inl rfl
  · exact Or.inl rfl
  · rename_i p hp
    have ht := tryBlock_devices t1
      { devices := h.devices, logger := h.logger.logCommand t0 command } p
    dsimp only
    split
    · rcases ht with ht | ⟨i, d, e, hf, hn, hs⟩
      · exact Or.inl ht
      · exact Or.inr ⟨p, i, d, e, hp, hf, hn, hs⟩
    · rcases ht with ht | ⟨i, d, e, hf, hn, hs⟩
      · exact Or.inl ht
      · exact Or.inr ⟨p, i, d, e, hp, hf, hn, hs⟩

/-! ## Decimal output -/

theorem digitValue_digitChar (k : Nat) (hk : k < 10) :
    digitValue (Nat.digitChar k) = k ∧ isdigit (Nat.digitChar k) = true := by
  interval_cases k <;> decide

theorem toDigitsCore_spec (fuel : Nat) : ∀ (n : Nat) (ds : List Char), n < fuel →
    ∃ pre, Nat.toDigitsCore 10 fuel n ds = pre ++ ds ∧ decimalValue pre = n ∧ pre ≠ [] ∧
      ∀ c ∈ pre, isdigit c = true := by
  induction fuel with
  | zero => intro n ds hn; exact absurd hn (Nat.not_lt_zero n)
  | succ fuel ih =>
    intro n ds hn
    have hmod : n % 10 < 10 := Nat.mod_lt _ (by decide)
    obtain ⟨hv, hd⟩ := digitValue_digitChar (n % 10) hmod
    unfold Nat.toDigitsCore
    dsimp only
    split
    · rename_i hz
      refine ⟨[Nat.digitChar (n % 10)], rfl, ?_, by simp, ?_⟩
      · simp only [decimalValue, List.foldl_cons, List.foldl_nil, hv]
        omega
      · intro c hc
        have : c = Nat.digitChar (n % 10) := by simpa using hc
        rw [this]
        exact hd
    · rename_i hz
      have hlt : n / 10 < fuel := by omega
      obtain ⟨pre, hpre, hval, hne, hdig⟩ := ih (n / 10) (Nat.digitChar (n % 10) :: ds) hlt
      refine ⟨pre ++ [Nat.digitChar (n % 10)], ?_, ?_, by simp, ?_⟩
      · rw [hpre]
        simp
      · rw [decimalValue_append, hval, hv]
        omega
      · intro c hc
        rcases List.mem_append.1 hc with hc | hc
        · exact hdig c hc
        · have : c = Nat.digitChar (n % 10) := by simpa using hc
          rw [this]
          exact hd

theorem toDigits_spec (n : Nat) :
    decimalValue (Nat.toDigits 10 n) = n ∧ Nat.toDigits 10 n ≠ [] ∧
      ∀ c ∈ Nat.toDigits 10 n, isdigit c = true := by
  obtain ⟨pre, hpre, hval, hne, hdig⟩ := toDigitsCore_spec (n + 1) n [] (Nat.lt_succ_self n)
  have : Nat.toDigits 10 n = pre := by
    simp only [Nat.toDigits, hpre, List.append_nil]
  rw [this]
  exact ⟨hval, hne, hdig⟩

theorem toDigits_injective (a b : Nat) (h : Nat.toDigits 10 a = Nat.toDigits 10 b) : a = b := by
  rw [← (toDigits_spec a).1, ← (toDigits_spec b).1, h]

theorem toDigits_ne_minus (n : Nat) (r : Str) : Nat.toDigits 10 n ≠ '-' :: r := by
  intro h
  have hd := (toDigits_spec n).2.2 '-' (by rw [h]; exact List.mem_cons_self _ _)
  exact absurd hd (by decide)

theorem to_string_injective (a b : Int) (h : to_string a = to_string b) : a = b := by
  unfold to_string at h
  split at h
  · split at h
    · have := toDigits_injective _ _ (List.cons.inj h).2
      omega
    · exact absurd h.symm (toDigits_ne_minus _ _)
  · split at h
    · exact absurd h (toDigits_ne_minus _ _)
    · have := toDigits_injective _ _ h
      omega

theorem Device_getStatus_isOn (n : Str) (o1 o2 : Bool) (x y : Str)
    (hx : x.head? = some ' ') (hy : y.head? = some ' ')
    (h : Device.getStatus { name := n, isOn := o1 } ++ x
      = Device.getStatus { name := n, isOn := o2 } ++ y) : o1 = o2 ∧ x = y := by
  simp only [Device.getStatus, List.append_assoc, List.append_cancel_left_eq] at h
  cases x with
  | nil => simp at hx
  | cons a x =>
    cases y with
    | nil => simp at hy
    | cons b y =>
      have ha : a = ' ' := by simpa using hx
      have hb : b = ' ' := by simpa using hy
      subst ha hb
      cases o1 <;> cases o2 <;> simp_all

theorem Light_getStatus_injective (l1 l2 : Light) (hn : l1.name = l2.name)
    (hs : l1.getStatus = l2.getStatus) : l1 = l2 := by
  obtain ⟨⟨n1, o1⟩, b1⟩ := l1
  obtain ⟨⟨n2, o2⟩, b2⟩ := l2
  simp only at hn
  subst hn
  simp only [Light.getStatus, List.append_assoc] at hs
  obtain ⟨ho, hx⟩ := Device_getStatus_isOn n1 o1 o2 _ _ (by simp) (by simp) hs
  subst ho
  have hb : to_string b1 = to_string b2 := by
    have := List.append_cancel_left hx
    exact List.append_cancel_right this
  rw [to_string_injective _ _ hb]

theorem Thermostat_getStatus_injective (t1 t2 : Thermostat) (hn : t1.name = t2.name)
    (hs : t1.getStatus = t2.getStatus) : t1 = t2 := by
  obtain ⟨⟨n1, o1⟩, b1⟩ := t1
  obtain ⟨⟨n2, o2⟩, b2⟩ := t2
  simp only at hn
  subst hn
  simp only [Thermostat.getStatus, List.append_assoc] at hs
  obtain ⟨ho, hx⟩ := Device_getStatus_isOn n1 o1 o2 _ _ (by simp) (by simp) hs
  subst ho
  have hb : to_string b1 = to_string b2 := by
    have := List.append_cancel_left hx
    exact List.append_cancel_right this
  rw [to_string_injective _ _ hb]

theorem SecurityCamera_getStatus_injective (c1 c2 : SecurityCamera) (hn : c1.name = c2.name)
    (hs : c1.getStatus = c2.getStatus) : c1 = c2 := by
  obtain ⟨⟨n1, o1⟩⟩ := c1
  obtain ⟨⟨n2, o2⟩⟩ := c2
  simp only at hn
  subst hn
  simp only [SecurityCamera.getStatus] at hs
  obtain ⟨ho, -⟩ := Device_getStatus_isOn n1 o1 o2 _ _
    (by cases o1 <;> simp) (by cases o2 <;> simp) hs
  rw [ho]

/-! ## The value passed to `adjustSetting` -/

theorem stoi_numeric (d : Str) (hnum : isNumeric d = true) :
    stoi d = if INT_MAX < (decimalValue d : Int) then .error (.out_of_range "stoi".toList)
      else .ok (decimalValue d : Int) := by
  have hne : d ≠ [] := by
    intro h
    rw [h] at hnum
    exact absurd hnum (by decide)
  have hd : ∀ c ∈ d, isdigit c = true := by
    simp only [isNumeric, Bool.and_eq_true, List.all_eq_true] at hnum
    exact hnum.2
  by_cases hfit : (decimalValue d : Int) ≤ INT_MAX
  · have hnot : ¬ (INT_MAX < (decimalValue d : Int)) := by omega
    rw [stoi_digits d hne hd hfit, if_neg hnot]
  · have hbig : INT_MAX < (decimalValue d : Int) := by omega
    rw [if_pos hbig]
    obtain ⟨c, r, rfl⟩ := List.exists_cons_of_ne_nil hne
    have hc : isdigit c = true := hd c (List.mem_cons_self _ _)
    have hsp : isspace c = false := isdigit_not_isspace c hc
    have hm : c ≠ '-' := isdigit_ne c '-' hc (by decide)
    have hp : c ≠ '+' := isdigit_ne c '+' hc (by decide)
    have htw : List.takeWhile isdigit (c :: r) = c :: r := by
      rw [List.takeWhile_eq_self_iff]
      exact hd
    have hdw : List.dropWhile isspace (c :: r) = c :: r := by
      simp [List.dropWhile, hsp]
    unfold stoi
    rw [hdw]
    have hmatch : (match (c :: r : Str) with
        | '-' :: r => (true, r)
        | '+' :: r => (false, r)
        | r => (false, r)) = (false, c :: r) := by
      split
      · rename_i heq
        exact absurd (List.cons.inj heq).1 hm
      · rename_i heq
        exact absurd (List.cons.inj heq).1 hp
      · rfl
    simp only [hmatch, htw]
    simp [hbig]

theorem parseCommand_settingValue_nonneg (command : Str) (p : Parsed)
    (hp : parseCommand command = .parsed p) : 0 ≤ p.settingValue := by
  unfold parseCommand at hp
  dsimp only at hp
  split at hp
  · split at hp
    · rename_i pos hpos
      split at hp
      · simp at hp
      · rename_i hnum
        have hnum2 : isNumeric (substrFrom (commandRemainder command) (pos + 1)) = true := by
          simpa using hnum
        rw [stoi_numeric _ hnum2] at hp
        by_cases hbig :
            INT_MAX < (decimalValue (substrFrom (commandRemainder command) (pos + 1)) : Int)
        · rw [if_pos hbig] at hp
          simp at hp
        · rw [if_neg hbig] at hp
          simp only [ParseExit.parsed.injEq] at hp
          rw [← hp]
          exact Int.ofNat_nonneg _
    · simp only [ParseExit.parsed.injEq] at hp
      rw [← hp]
  · simp only [ParseExit.parsed.injEq] at hp
    rw [← hp]

theorem adjustSetting_thrown (d : DevicePtr) (v : Int) (e : Exn)
    (he : (d.adjustSetting v).thrown = some e) : v < 0 ∨ 40 < v := by
  cases d with
  | light l =>
    simp only [DevicePtr.adjustSetting, Light.adjustSetting] at he
    split at he
    · simp at he
    · split at he
      · rename_i hv
        omega
      · simp at he
  | thermostat t =>
    simp only [DevicePtr.adjustSetting, Thermostat.adjustSetting] at he
    split at he
    · rename_i hv
      omega
    · simp at he
  | camera c =>
    simp [DevicePtr.adjustSetting, SecurityCamera.adjustSetting, Device.adjustSetting] at he

theorem tryBlock_out_of_range (now : Str) (h : SmartHome) (p : Parsed) (w : Str)
    (ht : (tryBlock now h p).thrown = some (.out_of_range w)) :
    p.settingValue < 0 ∨ 40 < p.settingValue := by
  unfold tryBlock at ht
  split at ht
  · simp at ht
  · rename_i i d hf
    split at ht
    · simp at ht
    · split at ht
      · simp at ht
      · split at ht
        · simp at ht
        · split at ht
          · dsimp only at ht
            split at ht
            · rename_i e he
              exact adjustSetting_thrown d _ e he
            · simp at ht
          · simp at ht

theorem set_getElem?_self (ds : List DevicePtr) (i : Nat) (d : DevicePtr)
    (hd : ds[i]? = some d) : ds.set i d = ds := by
  induction ds generalizing i with
  | nil => rfl
  | cons x xs ih =>
    cases i with
    | zero =>
      have : d = x := by simpa using hd.symm
      simp [List.set, this]
    | succ i =>
      have hd2 : xs[i]? = some d := by simpa using hd
      simp [List.set, ih i hd2]

theorem executeCommand_status (h : SmartHome) (t0 t1 command : Str) (p : Parsed) (i : Nat)
    (d : DevicePtr) (hp : parseCommand command = .parsed p)
    (hact : p.action = "status".toList)
    (hf : find_if h.devices p.deviceName = some (i, d)) :
    (h.executeCommand t0 t1 command).console = [d.getStatus] ∧
    (h.executeCommand t0 t1 command).home.devices = h.devices ∧
    (h.executeCommand t0 t1 command).outcome = .success := by
  have h1 : ¬ ("status".toList = "on".toList) := by decide
  have h2 : ¬ ("status".toList = "off".toList) := by decide
  simp only [SmartHome.executeCommand, hp, tryBlock, hf, hact, h1, h2, if_false, if_true]
  constructor <;> trivial

/-! ## A `set` that changes nothing -/

theorem executeCommand_set_noop_of_parsed (h : SmartHome)
    (t0 t1 command : Str) (p : Parsed) (i : Nat) (d : DevicePtr)
    (hp : parseCommand command = .parsed p) (hact : p.action = "set".toList)
    (hset : p.hasSetting = true) (hf : find_if h.devices p.deviceName = some (i, d))
    (hd : (∃ l, d = .light l ∧ l.isOn = false) ∨ ∃ c, d = .camera c) :
    (h.executeCommand t0 t1 command).outcome = .success ∧
    (h.executeCommand t0 t1 command).home.devices = h.devices ∧
    (h.executeCommand t0 t1 command).home.logger.logFile
      = h.logger.logFile ++
        [t0 ++ " - Command: ".toList ++ command,
         t1 ++ " - State Change: ".toList ++ p.deviceName ++ " - ".toList ++
           ("Setting adjusted to ".toList ++ to_string p.settingValue)] := by
  have h1 : ¬ ("set".toList = "on".toList) := by decide
  have h2 : ¬ ("set".toList = "off".toList) := by decide
  have h3 : ¬ ("set".toList = "status".toList) := by decide
  have hself : (d.adjustSetting p.settingValue).self = d ∧
      (d.adjustSetting p.settingValue).thrown = none := by
    rcases hd with ⟨l, rfl, hoff⟩ | ⟨c, rfl⟩
    · simp [DevicePtr.adjustSetting, Light.adjustSetting, hoff]
    · exact ⟨rfl, rfl⟩
  have hsame : h.devices.set i d = h.devices :=
    set_getElem?_self _ _ _ (find_if_some _ _ _ _ hf).1
  simp only [SmartHome.executeCommand, hp, tryBlock, hf, hact, h1, h2, h3, hset, if_false,
    and_self, if_true, hself.1, hself.2, hsame, Logger.logCommand, Logger.logStateChange]
  simp

/-! ## Two further runs -/

theorem twinHome_on_changes_first_only :
    (twinHome.executeCommand [] [] "on Lamp".toList).home.devices
      = [.light { name := "Lamp".toList, isOn := true, brightness := 100 }, .light lampOn] := by
  decide

theorem demoHome_set_light_off :
    (demoHome.executeCommand [] [] "set Living Room Light 75".toList).outcome = .success ∧
    (demoHome.executeCommand [] [] "set Living Room Light 75".toList).home.devices
      = demoHome.devices ∧
    (demoHome.executeCommand [] [] "set Living Room Light 75".toList).console
      = [RED ++ "Cannot adjust brightness while the light is off.".toList ++ RESET] := by
  decide

/-! ## Properties of the specification, continued -/

/-- C11 as stated fails: `set Lamp` has action `set` and a remainder without a space,
yet on the registry of `main` the call ends with `Device not found: ` (the
empty name), not with the invalid-action error. -/
theorem executeCommand_set_Lamp_not_found :
    (commandAction "set Lamp".toList = "set".toList ∧
      ' ' ∉ commandRemainder "set Lamp".toList) ∧
    (demoHome.executeCommand [] [] "set Lamp".toList).outcome
      = .caught (.runtime_error "Device not found: ".toList) ∧
    (demoHome.executeCommand [] [] "set Lamp".toList).outcome
      ≠ .caught (.runtime_error "Invalid action or missing setting for: set".toList) := by
  decide

/-- C11 (amended): when the action token is `set` and the remainder has no space, the
parse section leaves the device name empty and `hasSetting` false, and the
lookup runs with the empty name: the call ends in the handler with
`Device not found: ` when no device has the empty name, and with
`Invalid action or missing setting for: set` when one has; in both cases
every device is exactly as before. -/
theorem executeCommand_set_without_space (h : SmartHome) (t0 t1 command : Str)
    (hact : commandAction command = "set".toList) (hrem : ' ' ∉ commandRemainder command) :
    (h.executeCommand t0 t1 command).outcome =
      (match find_if h.devices [] with
       | none => .caught (.runtime_error "Device not found: ".toList)
       | some _ =>
         .caught (.runtime_error "Invalid action or missing setting for: set".toList)) ∧
    (h.executeCommand t0 t1 command).home.devices = h.devices := by
  have hp := parseCommand_set_no_space command hact hrem
  simp only [SmartHome.executeCommand, hp, tryBlock]
  cases hf : find_if h.devices [] with
  | none => exact ⟨rfl, rfl⟩
  | some x =>
    obtain ⟨i, d⟩ := x
    have h1 : ¬ ("set".toList = "on".toList) := by decide
    have h2 : ¬ ("set".toList = "off".toList) := by decide
    have h3 : ¬ ("set".toList = "status".toList) := by decide
    simp only [h1, h2, h3, if_false, Bool.false_eq_true, and_false]
    constructor <;> trivial

/-- Witness for C11: `set Lamp` on a registry that holds two lights named `Lamp`. -/
theorem executeCommand_set_without_space_witness :
    (commandAction "set Lamp".toList = "set".toList ∧
      ' ' ∉ commandRemainder "set Lamp".toList) ∧
    (twinHome.executeCommand [] [] "set Lamp".toList).outcome
      = .caught (.runtime_error "Device not found: ".toList) ∧
    (twinHome.executeCommand [] [] "set Lamp".toList).home.devices = twinHome.devices :=
  ⟨by decide,
    executeCommand_set_without_space twinHome [] [] "set Lamp".toList (by decide) (by decide)⟩

/-- C12 (defect in the code): the claim says that every error ends with an `ERROR`
record in the log.  On `set Living Room Light notanumber` the call ends with the
invalid-setting error by the early `return` of line 259, and the log file has
gained the raw command record and nothing else, in every registry. -/
theorem executeCommand_invalid_setting_not_logged (h : SmartHome) (t0 t1 : Str) :
    (h.executeCommand t0 t1 "set Living Room Light notanumber".toList).outcome
      = .invalidSetting ∧
    (h.executeCommand t0 t1 "set Living Room Light notanumber".toList).home.logger.logFile
      = h.logger.logFile ++
        [t0 ++ " - Command: ".toList ++ "set Living Room Light notanumber".toList] := by
  have hp : parseCommand "set Living Room Light notanumber".toList = .returned := by decide
  simp only [SmartHome.executeCommand, hp, Logger.logCommand]
  constructor <;> trivial

/-- C13: for every device of every variant, in any prior state, the status right
after `turnOn` begins with the name followed by ` is on`, and the status right
after `turnOff` begins with the name followed by ` is off`. -/
theorem getStatus_after_turnOn_turnOff (d : DevicePtr) :
    (d.getName ++ " is on".toList) <+: d.turnOn.getStatus ∧
    (d.getName ++ " is off".toList) <+: d.turnOff.getStatus := by
  cases d with
  | light l =>
    constructor
    · exact ⟨" (Brightness: ".toList ++ to_string 100 ++ "%)".toList, by
        simp [DevicePtr.getName, DevicePtr.turnOn, DevicePtr.getStatus, Light.getStatus,
          Light.turnOn, Device.getStatus]⟩
    · exact ⟨" (Brightness: ".toList ++ to_string 0 ++ "%)".toList, by
        simp [DevicePtr.getName, DevicePtr.turnOff, DevicePtr.getStatus, Light.getStatus,
          Light.turnOff, Device.getStatus]⟩
  | thermostat t =>
    constructor
    · exact ⟨" (Temperature: ".toList ++ to_string t.temperature ++ "°C)".toList, by
        simp [DevicePtr.getName, DevicePtr.turnOn, DevicePtr.getStatus, Thermostat.getStatus,
          Thermostat.turnOn, Device.turnOn, Device.getStatus]⟩
    · exact ⟨" (Temperature: ".toList ++ to_string t.temperature ++ "°C)".toList, by
        simp [DevicePtr.getName, DevicePtr.turnOff, DevicePtr.getStatus, Thermostat.getStatus,
          Thermostat.turnOff, Device.turnOff, Device.getStatus]⟩
  | camera c =>
    constructor
    · exact ⟨" (Recording)".toList, by
        simp [DevicePtr.getName, DevicePtr.turnOn, DevicePtr.getStatus,
          SecurityCamera.getStatus, SecurityCamera.turnOn, Device.turnOn, Device.getStatus]⟩
    · exact ⟨" (Not Recording)".toList, by
        simp [DevicePtr.getName, DevicePtr.turnOff, DevicePtr.getStatus,
          SecurityCamera.getStatus, SecurityCamera.turnOff, Device.turnOff, Device.getStatus]⟩

/-- C14: for every registry, duplicate names allowed, and every input line,
`executeCommand` keeps the number of devices and the sequence of their names,
and any position whose device it changes is the position of the first device,
in insertion order, named as the target of the parsed line: every other
device, a later one of the same name included, is as before. -/
theorem executeCommand_changes_only_first_match (h : SmartHome) (t0 t1 command : Str) :
    (h.executeCommand t0 t1 command).home.devices.length = h.devices.length ∧
    (h.executeCommand t0 t1 command).home.devices.map DevicePtr.getName
      = h.devices.map DevicePtr.getName ∧
    ∀ j, (h.executeCommand t0 t1 command).home.devices[j]? ≠ h.devices[j]? →
      ∃ p, parseCommand command = .parsed p ∧ isFirstNamed h.devices p.deviceName j := by
  rcases executeCommand_devices h t0 t1 command with heq | ⟨p, i, d, e, hp, hf, hn, hs⟩
  · rw [heq]
    exact ⟨rfl, rfl, fun j hj => absurd rfl hj⟩
  · rw [hs]
    refine ⟨List.length_set _ _ _, map_getName_set _ _ d e (find_if_some _ _ _ _ hf).1 hn, ?_⟩
    intro j hj
    have hji : i = j := by
      by_contra hne
      exact hj (List.getElem?_set_ne hne)
    subst hji
    exact ⟨p, hp, find_if_first _ _ _ _ hf⟩

/-- C15: `turnOn` and `turnOff` are idempotent for every device of every variant in
every state, and a light that is already on, at any brightness, is left on
at brightness 100 by `turnOn`. -/
theorem turnOn_turnOff_idempotent (d : DevicePtr) (l : Light) :
    d.turnOn.turnOn = d.turnOn ∧ d.turnOff.turnOff = d.turnOff ∧
    (l.isOn = true → l.turnOn = { name := l.name, isOn := true, brightness := 100 }) := by
  refine ⟨?_, ?_, fun _ => rfl⟩
  · cases d <;> rfl
  · cases d <;> rfl

/-- Witness for C15: the lit lamp at brightness 40. -/
theorem turnOn_turnOff_idempotent_witness :
    lampOn.isOn = true ∧ lampOn.turnOn = { name := lampOn.name, isOn := true, brightness := 100 } :=
  ⟨rfl, (turnOn_turnOff_idempotent (.light lampOn) lampOn).2.2 rfl⟩

/-- C16: `sanitizeDeviceName s` is `s` with every `<` and `>` removed and the other
characters kept in order; so the result has no angle bracket, the function is
idempotent, and it is the identity on strings without angle brackets. -/
theorem sanitizeDeviceName_removes_angle_brackets (s : Str) :
    sanitizeDeviceName s = removeAngleBrackets s ∧
    '<' ∉ sanitizeDeviceName s ∧ '>' ∉ sanitizeDeviceName s ∧
    sanitizeDeviceName (sanitizeDeviceName s) = sanitizeDeviceName s ∧
    ('<' ∉ s → '>' ∉ s → sanitizeDeviceName s = s) := by
  have hlt : '<' ∉ sanitizeDeviceName s := by
    rw [sanitizeDeviceName_eq_filter]
    simp [List.mem_filter]
  have hgt : '>' ∉ sanitizeDeviceName s := by
    rw [sanitizeDeviceName_eq_filter]
    simp [List.mem_filter]
  refine ⟨?_, hlt, hgt, sanitizeDeviceName_id _ hlt hgt, sanitizeDeviceName_id s⟩
  rw [sanitizeDeviceName_eq_filter, removeAngleBrackets_eq_filter]

/-- Witness for C16: a name with a placeholder in angle brackets, and one without. -/
theorem sanitizeDeviceName_removes_angle_brackets_witness :
    sanitizeDeviceName "<Living> Room <<Light>".toList = "Living Room Light".toList ∧
    ('<' ∉ "Main Thermostat".toList ∧ '>' ∉ "Main Thermostat".toList) ∧
    sanitizeDeviceName "Main Thermostat".toList = "Main Thermostat".toList :=
  ⟨by decide, by decide,
    (sanitizeDeviceName_removes_angle_brackets "Main Thermostat".toList).2.2.2.2
      (by decide) (by decide)⟩

/-- C17: the status string determines the state: two lights, two thermostats or two
cameras of the same name with equal `getStatus` are equal (same on-state, same
brightness or temperature); and in the state reached by any sequence of
commands, a `status` command that finds its device prints exactly the
`getStatus` of that device as that state holds it, and changes no device. -/
theorem getStatus_determines_state :
    (∀ l1 l2 : Light, l1.name = l2.name → l1.getStatus = l2.getStatus → l1 = l2) ∧
    (∀ t1 t2 : Thermostat, t1.name = t2.name → t1.getStatus = t2.getStatus → t1 = t2) ∧
    (∀ c1 c2 : SecurityCamera, c1.name = c2.name → c1.getStatus = c2.getStatus → c1 = c2) ∧
    (∀ (h : SmartHome) (calls : List Call) (t0 t1 command : Str) (p : Parsed) (i : Nat)
        (d : DevicePtr), parseCommand command = .parsed p → p.action = "status".toList →
      find_if (h.runCommands calls).devices p.deviceName = some (i, d) →
      ((h.runCommands calls).executeCommand t0 t1 command).console = [d.getStatus] ∧
      ((h.runCommands calls).executeCommand t0 t1 command).home.devices
        = (h.runCommands calls).devices) := by
  refine ⟨Light_getStatus_injective, Thermostat_getStatus_injective,
    SecurityCamera_getStatus_injective, ?_⟩
  intro h calls t0 t1 command p i d hp hact hf
  have := executeCommand_status (h.runCommands calls) t0 t1 command p i d hp hact hf
  exact ⟨this.1, this.2.1⟩

/-- Witness for C17: the thermostat of `main` after `on` and `set ... 25`. -/
theorem getStatus_determines_state_witness :
    (parseCommand "status Main Thermostat".toList
        = .parsed { action := "status".toList, deviceName := "Main Thermostat".toList,
                    settingStr := [], settingValue := 0, hasSetting := false } ∧
      find_if (demoHome.runCommands
          [⟨[], [], "on Main Thermostat".toList⟩,
           ⟨[], [], "set Main Thermostat 25".toList⟩]).devices "Main Thermostat".toList
        = some (1, .thermostat
            { name := "Main Thermostat".toList, isOn := true, temperature := 25 })) ∧
    ((demoHome.runCommands
          [⟨[], [], "on Main Thermostat".toList⟩,
           ⟨[], [], "set Main Thermostat 25".toList⟩]).executeCommand [] []
        "status Main Thermostat".toList).console
      = ["Main Thermostat is on (Temperature: 25°C)".toList] :=
  ⟨by decide,
    (getStatus_determines_state.2.2.2 demoHome
      [⟨[], [], "on Main Thermostat".toList⟩, ⟨[], [], "set Main Thermostat 25".toList⟩]
      [] [] "status Main Thermostat".toList
      { action := "status".toList, deviceName := "Main Thermostat".toList,
        settingStr := [], settingValue := 0, hasSetting := false }
      1 (.thermostat { name := "Main Thermostat".toList, isOn := true, temperature := 25 })
      (by decide) (by decide) (by decide)).1⟩

/-- C18: after `n` calls of `logCommand` from an empty history, the history
holds exactly `min n 1000` entries, the most recent ones in the order they were
issued; and every call of `executeCommand`, however it ends, leaves the entry
of its raw input line as the newest one. -/
theorem commandHistory_bounded_fifo (lg : Logger) (calls : List LogCall)
    (h : SmartHome) (t0 t1 command : Str) (hempty : lg.commandHistory = []) :
    (lg.logCommands calls).commandHistory.length = min calls.length 1000 ∧
    (lg.logCommands calls).commandHistory
      = (calls.map LogCall.entry).drop (calls.length - 1000) ∧
    (h.executeCommand t0 t1 command).home.logger.commandHistory.getLast?
      = some (t0 ++ " - ".toList ++ command) := by
  have hh := logCommands_history lg calls hempty
  refine ⟨?_, hh, ?_⟩
  · rw [hh]
    simp only [List.length_drop, List.length_map, MAX_HISTORY_SIZE]
    omega
  · rw [executeCommand_commandHistory]
    exact logCommand_history_getLast h.logger t0 command

/-- Witness for C18: three `logCommand` calls on a new logger, and one command. -/
theorem commandHistory_bounded_fifo_witness :
    Logger.new.commandHistory = [] ∧
    (Logger.new.logCommands
        [⟨"t1".toList, "on A".toList⟩, ⟨"t2".toList, "off A".toList⟩,
         ⟨"t3".toList, "bogus".toList⟩]).commandHistory
      = ["t1 - on A".toList, "t2 - off A".toList, "t3 - bogus".toList] ∧
    (demoHome.executeCommand "t4".toList [] "set Lamp x".toList).home.logger.commandHistory.getLast?
      = some "t4 - set Lamp x".toList :=
  ⟨rfl,
    (commandHistory_bounded_fifo Logger.new
      [⟨"t1".toList, "on A".toList⟩, ⟨"t2".toList, "off A".toList⟩,
       ⟨"t3".toList, "bogus".toList⟩] demoHome "t4".toList [] "set Lamp x".toList rfl).2.1,
    (commandHistory_bounded_fifo Logger.new [] demoHome "t4".toList [] "set Lamp x".toList rfl).2.2⟩

/-- C19: the value that `executeCommand` passes to `adjustSetting` is the
`settingValue` of the parsed line, and it is never negative; a `set` line whose
last token begins with a minus sign ends with the invalid-setting error before
the `try` block, the devices unchanged; and whenever the handler catches a
range error, the value of the line is above 40, so no range error comes from
a negative value. -/
theorem executeCommand_setting_never_negative (h : SmartHome) (t0 t1 command : Str) :
    (∀ p, parseCommand command = .parsed p → 0 ≤ p.settingValue) ∧
    (∀ pre rest, commandAction command = "set".toList →
      commandRemainder command = pre ++ ' ' :: '-' :: rest → ' ' ∉ rest →
      (h.executeCommand t0 t1 command).outcome = .invalidSetting ∧
      (h.executeCommand t0 t1 command).home.devices = h.devices) ∧
    (∀ w, (h.executeCommand t0 t1 command).outcome = .caught (.out_of_range w) →
      ∃ p, parseCommand command = .parsed p ∧ 40 < p.settingValue) := by
  refine ⟨parseCommand_settingValue_nonneg command, ?_, ?_⟩
  · intro pre rest hact hrem hsp
    have htok : ' ' ∉ '-' :: rest := by
      intro hmem
      rcases List.mem_cons.1 hmem with h1 | h1
      · exact absurd h1 (by decide)
      · exact hsp h1
    have hbad : ¬ (('-' :: rest) ≠ [] ∧ ∀ c ∈ '-' :: rest, isdigit c = true) := by
      rintro ⟨-, hall⟩
      exact absurd (hall '-' (List.mem_cons_self _ _)) (by decide)
    have hp : parseCommand command = .returned := by
      rw [parseCommand_set_split command pre ('-' :: rest) hact hrem htok,
        isNumeric_false _ hbad]
      rfl
    simp only [SmartHome.executeCommand, hp]
    constructor <;> trivial
  · intro w hout
    unfold SmartHome.executeCommand at hout
    split at hout
    · simp at hout
    · simp at hout
    · rename_i p hp
      dsimp only at hout
      split at hout
      · simp at hout
      · rename_i e he
        simp only [Outcome.caught.injEq] at hout
        rw [hout] at he
        have hrange := tryBlock_out_of_range _ _ p w he
        have hnn := parseCommand_settingValue_nonneg command p hp
        exact ⟨p, hp, by omega⟩

/-- Witness for C19: `set Main Thermostat -5` on the registry of `main`. -/
theorem executeCommand_setting_never_negative_witness :
    (commandAction "set Main Thermostat -5".toList = "set".toList ∧
      commandRemainder "set Main Thermostat -5".toList
        = "Main Thermostat".toList ++ ' ' :: '-' :: "5".toList ∧
      ' ' ∉ "5".toList) ∧
    (demoHome.executeCommand [] [] "set Main Thermostat -5".toList).outcome = .invalidSetting ∧
    (demoHome.executeCommand [] [] "set Main Thermostat -5".toList).home.devices
      = demoHome.devices :=
  ⟨by decide,
    (executeCommand_setting_never_negative demoHome [] [] "set Main Thermostat -5".toList).2.1
      "Main Thermostat".toList "5".toList (by decide) (by decide) (by decide)⟩

/-- C20 as stated fails: `set Front Door Camera 99999999999` is a well-formed `set`
line with an all-digit value, addressed to a camera, yet the value does not
fit in `int`: `std::stoi` throws before the `try` block, the call does not end
in success, and the log gains the raw command record only. -/
theorem executeCommand_set_camera_value_too_large :
    (commandAction "set Front Door Camera 99999999999".toList = "set".toList ∧
      commandRemainder "set Front Door Camera 99999999999".toList
        = "Front Door Camera".toList ++ ' ' :: "99999999999".toList ∧
      "99999999999".toList ≠ [] ∧ (∀ c ∈ "99999999999".toList, isdigit c = true) ∧
      find_if demoHome.devices (sanitizeDeviceName "Front Door Camera".toList)
        = some (2, .camera frontDoorCamera)) ∧
    (demoHome.executeCommand [] [] "set Front Door Camera 99999999999".toList).outcome
      = .uncaught (.out_of_range "stoi".toList) ∧
    (demoHome.executeCommand [] [] "set Front Door Camera 99999999999".toList).outcome
      ≠ .success ∧
    (demoHome.executeCommand [] [] "set Front Door Camera 99999999999".toList).home.logger.logFile
      = demoHome.logger.logFile ++
        [" - Command: set Front Door Camera 99999999999".toList] := by
  decide

/-- C20 (amended): when the action token is `set`, the remainder is
`pre ++ " " ++ tok` with `tok` a non-empty string of ASCII digits whose value `v`
fits in `int`, and the first device named as the sanitized `pre` is a light
that is off or a camera, `executeCommand` ends in success with every device
exactly as before, and the log file gains the raw command record and the
record `Setting adjusted to v`, and nothing else: no `ERROR` record is
written. -/
theorem executeCommand_set_reports_success_without_change (h : SmartHome)
    (t0 t1 command pre tok : Str) (i : Nat) (d : DevicePtr)
    (hact : commandAction command = "set".toList)
    (hrem : commandRemainder command = pre ++ ' ' :: tok)
    (hne : tok ≠ []) (hdig : ∀ c ∈ tok, isdigit c = true)
    (hfit : (decimalValue tok : Int) ≤ INT_MAX)
    (hf : find_if h.devices (sanitizeDeviceName pre) = some (i, d))
    (hd : (∃ l, d = .light l ∧ l.isOn = false) ∨ ∃ c, d = .camera c) :
    (h.executeCommand t0 t1 command).outcome = .success ∧
    (h.executeCommand t0 t1 command).home.devices = h.devices ∧
    (h.executeCommand t0 t1 command).home.logger.logFile
      = h.logger.logFile ++
        [t0 ++ " - Command: ".toList ++ command,
         t1 ++ " - State Change: ".toList ++ sanitizeDeviceName pre ++ " - ".toList ++
           ("Setting adjusted to ".toList ++ to_string (decimalValue tok : Int))] := by
  have hp : parseCommand command
      = .parsed { action := "set".toList, deviceName := sanitizeDeviceName pre,
                  settingStr := tok, settingValue := (decimalValue tok : Int),
                  hasSetting := true } := by
    rw [parseCommand_set_split command pre tok hact hrem (space_not_mem_digits tok hdig)]
    simp [isNumeric_digits tok hne hdig, stoi_digits tok hne hdig hfit]
  exact executeCommand_set_noop_of_parsed h t0 t1 command _ i d hp rfl rfl hf hd

/-- Witness for C20: `set Front Door Camera 5` on the registry of `main`. -/
theorem executeCommand_set_reports_success_without_change_witness :
    (commandAction "set Front Door Camera 5".toList = "set".toList ∧
      commandRemainder "set Front Door Camera 5".toList
        = "Front Door Camera".toList ++ ' ' :: "5".toList ∧
      "5".toList ≠ [] ∧ (∀ c ∈ "5".toList, isdigit c = true) ∧
      (decimalValue "5".toList : Int) ≤ INT_MAX ∧
      find_if demoHome.devices (sanitizeDeviceName "Front Door Camera".toList)
        = some (2, .camera frontDoorCamera)) ∧
    (demoHome.executeCommand "t0".toList "t1".toList "set Front Door Camera 5".toList).outcome
      = .success ∧
    (demoHome.executeCommand "t0".toList "t1".toList
        "set Front Door Camera 5".toList).home.devices = demoHome.devices ∧
    (demoHome.executeCommand "t0".toList "t1".toList
        "set Front Door Camera 5".toList).home.logger.logFile
      = demoHome.logger.logFile ++
        ["t0 - Command: set Front Door Camera 5".toList,
         "t1 - State Change: Front Door Camera - Setting adjusted to 5".toList] :=
  ⟨by decide,
    executeCommand_set_reports_success_without_change demoHome "t0".toList "t1".toList
      "set Front Door Camera 5".toList "Front Door Camera".toList "5".toList
      2 (.camera frontDoorCamera) (by decide) (by decide) (by decide) (by decide) (by decide)
      (by decide) (Or.inr ⟨frontDoorCamera, rfl⟩)⟩

end SmartHomeSystem
